import Mathlib

/-!
Verification of the screenplay-analysis orchestration service.

Each Python source function relevant to the frozen claims is shallowly
embedded as an executable Lean definition, and the claims are settled as
theorems about those definitions.  Machine reals of the source are modelled
as rationals; fallible code returns `Except`/`Option`.
-/

namespace BudgetUtils

/-- Embedding of `budget_utils.categorize_budget`: maps a budget amount (USD)
to one of five tier keys by fixed thresholds.  Budgets are modelled as `ℚ`. -/
def categorize_budget (budget : ℚ) : String :=
  if budget < 1000000 then "micro"
  else if budget < 5000000 then "low"
  else if budget < 20000000 then "mid"
  else if budget < 50000000 then "high"
  else "tentpole"

/-- Position of a tier key in the documented ordering
micro < low < mid < high < tentpole (used to state monotonicity). -/
def tierIndex (tier : String) : ℕ :=
  if tier = "micro" then 0
  else if tier = "low" then 1
  else if tier = "mid" then 2
  else if tier = "high" then 3
  else 4

/-- List of the five documented tier keys. -/
def tierKeys : List String := ["micro", "low", "mid", "high", "tentpole"]

end BudgetUtils

namespace BudgetUtils

/-- Every budget is categorized into one of the five documented tier keys. -/
theorem categorize_budget_mem (b : ℚ) : categorize_budget b ∈ tierKeys := by
  unfold categorize_budget
  split_ifs <;> simp [tierKeys]

/-- Tier assignment is monotone in the budget amount. -/
theorem categorize_budget_mono (b1 b2 : ℚ) (h : b1 ≤ b2) :
    tierIndex (categorize_budget b1) ≤ tierIndex (categorize_budget b2) := by
  unfold categorize_budget
  split_ifs <;> first | decide | linarith

/-- C7: for every budget amount the function returns exactly one of the five
tiers, and the mapping is monotone with respect to the tier ordering
micro < low < mid < high < tentpole. -/
theorem categorize_budget_total_and_monotone (b1 b2 : ℚ) (h : b1 ≤ b2) :
    categorize_budget b1 ∈ tierKeys ∧
    categorize_budget b2 ∈ tierKeys ∧
    tierIndex (categorize_budget b1) ≤ tierIndex (categorize_budget b2) :=
  ⟨categorize_budget_mem b1, categorize_budget_mem b2, categorize_budget_mono b1 b2 h⟩

/-- Witness for C7 at the concrete pair 3000000 ≤ 25000000:
"low" and "high" are produced, in order. -/
theorem categorize_budget_total_and_monotone_witness :
    (3000000 : ℚ) ≤ 25000000 ∧
    (categorize_budget 3000000 ∈ tierKeys ∧
     categorize_budget 25000000 ∈ tierKeys ∧
     tierIndex (categorize_budget 3000000) ≤ tierIndex (categorize_budget 25000000)) :=
  ⟨by norm_num, categorize_budget_total_and_monotone 3000000 25000000 (by norm_num)⟩

end BudgetUtils

namespace StrUtil

/-- Boolean prefix test on character lists (helper for substring search). -/
def prefixOf : List Char → List Char → Bool
  | [], _ => true
  | _ :: _, [] => false
  | a :: as, b :: bs => a = b && prefixOf as bs

/-- Boolean substring test on character lists: Python's `needle in hay`. -/
def containsList (needle : List Char) : List Char → Bool
  | [] => needle.isEmpty
  | c :: rest => prefixOf needle (c :: rest) || containsList needle rest

/-- Python's `needle in hay` on strings. -/
def strContains (hay needle : String) : Bool :=
  containsList needle.toList hay.toList

/-- ASCII lowercase of one character (Python's `str.lower` on ASCII text). -/
def lowerChar (c : Char) : Char :=
  if 65 ≤ c.toNat ∧ c.toNat ≤ 90 then Char.ofNat (c.toNat + 32) else c

/-- ASCII lowercase of a string, as a character list. -/
def lowerList (l : List Char) : List Char := l.map lowerChar

end StrUtil

namespace ClaudeAnalyzer

/-- Backoff schedule of `_call_claude_api` in `claude_analyzer.py`:
"Retry delays: 5, 10, 20, 30, 40, 50, 60 seconds". -/
def retry_delays : List ℕ := [5, 10, 20, 30, 40, 50, 60]

/-- Predicate of `_call_claude_api` deciding whether an error is the transient
overloaded condition: `"overloaded" in error_str.lower() or "529" in error_str`. -/
def isOverloadedError (e : String) : Bool :=
  StrUtil.containsList "overloaded".toList (StrUtil.lowerList e.toList) ||
  StrUtil.strContains e "529"

/-- Definitive failure message raised once the retry cap is exhausted
(`len(retry_delays) + 1 = 8` attempts, `sum(retry_delays) = 215` seconds). -/
def overloadedMsg : String :=
  "Claude API overloaded after 8 retries over 215 seconds. Skipping Claude analysis."

/-- Trace of one `_call_claude_api` execution: final outcome, the sleeps
performed between attempts, and how many attempts were made. -/
structure CallTrace where
  result : Except String String
  sleeps : List ℕ
  attempts : ℕ
  deriving Repr

/-- Loop body of `_call_claude_api`: `env k` is the outcome of the k-th
attempt against the API (response text, or the exception's text).  On an
overloaded error with attempts remaining, sleep `retry_delays[attempt]`
and retry; on an overloaded error at the cap, raise the definitive failure;
on any other error, re-raise immediately. -/
def callClaudeApiLoop (env : ℕ → Except String String) (attempt : ℕ) (sleeps : List ℕ) :
    CallTrace :=
  match env attempt with
  | .ok r => ⟨.ok r, sleeps, attempt + 1⟩
  | .error e =>
    if isOverloadedError e then
      if h : attempt < retry_delays.length then
        callClaudeApiLoop env (attempt + 1) (sleeps ++ [retry_delays.get ⟨attempt, h⟩])
      else
        ⟨.error overloadedMsg, sleeps, attempt + 1⟩
    else
      ⟨.error e, sleeps, attempt + 1⟩
termination_by retry_delays.length - attempt
decreasing_by simp [retry_delays] at *; omega

/-- Embedding of `_call_claude_api` (claude_analyzer.py lines 303-367). -/
def callClaudeApi (env : ℕ → Except String String) : CallTrace :=
  callClaudeApiLoop env 0 []

end ClaudeAnalyzer

namespace ClaudeAnalyzer

/-- Unfolding equation: a successful attempt returns immediately. -/
theorem loop_eq_ok (env : ℕ → Except String String) (a : ℕ) (s : List ℕ) (r : String)
    (h : env a = .ok r) : callClaudeApiLoop env a s = ⟨.ok r, s, a + 1⟩ := by
  rw [callClaudeApiLoop, h]

/-- Unfolding equation: an overloaded error with budget left sleeps and retries. -/
theorem loop_eq_retry (env : ℕ → Except String String) (a : ℕ) (s : List ℕ) (e : String)
    (h : env a = .error e) (hov : isOverloadedError e = true)
    (hlt : a < retry_delays.length) :
    callClaudeApiLoop env a s =
      callClaudeApiLoop env (a + 1) (s ++ [retry_delays.get ⟨a, hlt⟩]) := by
  rw [callClaudeApiLoop, h]
  simp [hov, hlt]

/-- Unfolding equation: an overloaded error at the attempt cap raises the
definitive failure. -/
theorem loop_eq_cap (env : ℕ → Except String String) (a : ℕ) (s : List ℕ) (e : String)
    (h : env a = .error e) (hov : isOverloadedError e = true)
    (hnlt : ¬ a < retry_delays.length) :
    callClaudeApiLoop env a s = ⟨.error overloadedMsg, s, a + 1⟩ := by
  rw [callClaudeApiLoop, h]
  simp [hov, hnlt]

/-- Unfolding equation: any other error is re-raised immediately, no retry. -/
theorem loop_eq_fatal (env : ℕ → Except String String) (a : ℕ) (s : List ℕ) (e : String)
    (h : env a = .error e) (hov : isOverloadedError e = false) :
    callClaudeApiLoop env a s = ⟨.error e, s, a + 1⟩ := by
  rw [callClaudeApiLoop, h]
  simp [hov]

/-- Projection of an explicit call trace (reduction helper). -/
theorem mk_result (r : Except String String) (s : List ℕ) (a : ℕ) :
    (CallTrace.mk r s a).result = r := rfl

/-- Projection of an explicit call trace (reduction helper). -/
theorem mk_sleeps (r : Except String String) (s : List ℕ) (a : ℕ) :
    (CallTrace.mk r s a).sleeps = s := rfl

/-- Projection of an explicit call trace (reduction helper). -/
theorem mk_attempts (r : Except String String) (s : List ℕ) (a : ℕ) :
    (CallTrace.mk r s a).attempts = a := rfl

/-- Invariant of the retry loop, proved by induction on the remaining
attempt budget: bounds on the attempt count, the exact sleep schedule
consumed, that every retried attempt had failed with an overloaded error,
and the definitive failure once every attempt is overloaded. -/
theorem callClaudeApiLoop_spec (env : ℕ → Except String String) :
    ∀ n a s, retry_delays.length - a ≤ n → a ≤ retry_delays.length →
      a + 1 ≤ (callClaudeApiLoop env a s).attempts ∧
      (callClaudeApiLoop env a s).attempts ≤ retry_delays.length + 1 ∧
      (callClaudeApiLoop env a s).sleeps =
        s ++ (retry_delays.drop a).take ((callClaudeApiLoop env a s).attempts - 1 - a) ∧
      (∀ k, a ≤ k → k + 1 < (callClaudeApiLoop env a s).attempts →
        ∃ e, env k = .error e ∧ isOverloadedError e = true) ∧
      ((∀ k, a ≤ k → k < retry_delays.length + 1 →
          ∃ e, env k = .error e ∧ isOverloadedError e = true) →
        (callClaudeApiLoop env a s).result = .error overloadedMsg ∧
        (callClaudeApiLoop env a s).attempts = retry_delays.length + 1) := by
  intro n
  induction n with
  | zero =>
    intro a s hn ha
    have haeq : a = retry_delays.length := by omega
    cases henv : env a with
    | ok r =>
      rw [loop_eq_ok env a s r henv]
      simp only [mk_result, mk_sleeps, mk_attempts]
      refine ⟨le_refl _, by omega, by simp, fun k hk hk2 => absurd hk2 (by omega), ?_⟩
      intro hall
      obtain ⟨e, he, _⟩ := hall a (le_refl a) (by omega)
      rw [henv] at he; exact absurd he (by simp)
    | error e =>
      cases hov : isOverloadedError e with
      | true =>
        rw [loop_eq_cap env a s e henv hov (by omega)]
        simp only [mk_result, mk_sleeps, mk_attempts]
        exact ⟨le_refl _, by omega, by simp, fun k hk hk2 => absurd hk2 (by omega),
          fun _ => ⟨by trivial, by omega⟩⟩
      | false =>
        rw [loop_eq_fatal env a s e henv hov]
        simp only [mk_result, mk_sleeps, mk_attempts]
        refine ⟨le_refl _, by omega, by simp, fun k hk hk2 => absurd hk2 (by omega), ?_⟩
        intro hall
        obtain ⟨e2, he2, hov2⟩ := hall a (le_refl a) (by omega)
        rw [henv] at he2
        cases he2
        rw [hov] at hov2; exact absurd hov2 (by simp)
  | succ n ih =>
    intro a s hn ha
    cases henv : env a with
    | ok r =>
      rw [loop_eq_ok env a s r henv]
      simp only [mk_result, mk_sleeps, mk_attempts]
      refine ⟨le_refl _, by omega, by simp, fun k hk hk2 => absurd hk2 (by omega), ?_⟩
      intro hall
      obtain ⟨e, he, _⟩ := hall a (le_refl a) (by omega)
      rw [henv] at he; exact absurd he (by simp)
    | error e =>
      cases hov : isOverloadedError e with
      | true =>
        by_cases hlt : a < retry_delays.length
        · rw [loop_eq_retry env a s e henv hov hlt]
          obtain ⟨ih1, ih2, ih3, ih4, ih5⟩ :=
            ih (a + 1) (s ++ [retry_delays.get ⟨a, hlt⟩]) (by omega) (by omega)
          refine ⟨by omega, ih2, ?_, ?_, ?_⟩
          · rw [ih3, List.append_assoc]
            congr 1
            have hdrop : retry_delays.drop a =
                retry_delays.get ⟨a, hlt⟩ :: retry_delays.drop (a + 1) := by
              rw [List.drop_eq_getElem_cons hlt]; simp
            rw [hdrop]
            have harith :
                (callClaudeApiLoop env (a + 1) (s ++ [retry_delays.get ⟨a, hlt⟩])).attempts
                  - 1 - a =
                ((callClaudeApiLoop env (a + 1) (s ++ [retry_delays.get ⟨a, hlt⟩])).attempts
                  - 1 - (a + 1)) + 1 := by omega
            rw [harith, List.take_succ_cons]
            simp
          · intro k hk hk2
            rcases Nat.eq_or_lt_of_le hk with heq | hlt2
            · exact ⟨e, heq ▸ henv, hov⟩
            · exact ih4 k hlt2 hk2
          · intro hall
            exact ih5 (fun k hk hk2 => hall k (by omega) hk2)
        · rw [loop_eq_cap env a s e henv hov hlt]
          simp only [mk_result, mk_sleeps, mk_attempts]
          exact ⟨le_refl _, by omega, by simp, fun k hk hk2 => absurd hk2 (by omega),
            fun _ => ⟨by trivial, by omega⟩⟩
      | false =>
        rw [loop_eq_fatal env a s e henv hov]
        simp only [mk_result, mk_sleeps, mk_attempts]
        refine ⟨le_refl _, by omega, by simp, fun k hk hk2 => absurd hk2 (by omega), ?_⟩
        intro hall
        obtain ⟨e2, he2, hov2⟩ := hall a (le_refl a) (by omega)
        rw [henv] at he2
        cases he2
        rw [hov] at hov2; exact absurd hov2 (by simp)

end ClaudeAnalyzer

namespace ClaudeAnalyzer

/-- C4: the primary provider's API call retries only on a transient
overloaded condition (error text containing "overloaded" or "529"),
sleeping the increasing backoff schedule 5,10,20,30,40,50,60 seconds for at
most 8 total attempts before raising a definitive failure; every other
error is raised immediately with no retry. -/
theorem claude_api_retry_policy (env : ℕ → Except String String) :
    (callClaudeApi env).attempts ≤ 8 ∧
    (callClaudeApi env).sleeps = retry_delays.take ((callClaudeApi env).attempts - 1) ∧
    (∀ k, k + 1 < (callClaudeApi env).attempts →
      ∃ e, env k = .error e ∧ isOverloadedError e = true) ∧
    (∀ e, env 0 = .error e → isOverloadedError e = false →
      callClaudeApi env = ⟨.error e, [], 1⟩) ∧
    ((∀ k, k < 8 → ∃ e, env k = .error e ∧ isOverloadedError e = true) →
      (callClaudeApi env).result = .error overloadedMsg ∧
      (callClaudeApi env).sleeps = retry_delays ∧
      (callClaudeApi env).attempts = 8) := by
  have hlen : retry_delays.length = 7 := rfl
  obtain ⟨h1, h2, h3, h4, h5⟩ :=
    callClaudeApiLoop_spec env retry_delays.length 0 [] (by omega) (by omega)
  refine ⟨by rw [callClaudeApi]; omega, ?_, ?_, ?_, ?_⟩
  · rw [callClaudeApi] at *
    rw [h3]; simp
  · intro k hk
    exact h4 k (Nat.zero_le k) hk
  · intro e he hov
    rw [callClaudeApi]
    exact loop_eq_fatal env 0 [] e he hov
  · intro hall
    rw [callClaudeApi] at *
    obtain ⟨hres, hatt⟩ := h5 (fun k _ hk => hall k (by omega))
    refine ⟨hres, ?_, by omega⟩
    rw [h3, hatt]
    simp [retry_delays]

/-- Witness for C4: with every attempt failing with a "529" error, the call
raises the definitive overloaded failure after sleeping the full
5,10,20,30,40,50,60 schedule, having made 8 attempts. -/
theorem claude_api_retry_policy_witness :
    (callClaudeApi (fun _ => .error "Error code: 529")).result = .error overloadedMsg ∧
    (callClaudeApi (fun _ => .error "Error code: 529")).sleeps = retry_delays ∧
    (callClaudeApi (fun _ => .error "Error code: 529")).attempts = 8 :=
  (claude_api_retry_policy (fun _ => .error "Error code: 529")).2.2.2.2
    (fun _ _ => ⟨"Error code: 529", rfl, by decide⟩)

end ClaudeAnalyzer

namespace MainQueue

/-- Shared counters of main.py: the semaphore's available-slot count
(`analysis_semaphore._value`, capacity MAX_CONCURRENT_ANALYSES = 3) and the
`analysis_queue_size` counter. -/
structure QState where
  slots : ℕ
  queued : ℕ
  deriving Repr, DecidableEq

/-- Embedding of `queued_analysis` (main.py lines 555-571) for one admitted
job.  `body` is the outcome of `await analysis_func(*args, **kwargs)`.
The wrapper increments `analysis_queue_size`, acquires one semaphore slot
(`async with analysis_semaphore`), decrements `analysis_queue_size` inside
the `try`, runs the body, and — by the `async with` exit — releases the slot
on every exit path; an exception from the body is logged and re-raised
after the release. -/
def queued_analysis (st : QState) (body : Except String Unit) :
    QState × Except String Unit :=
  let stQueued : QState := ⟨st.slots, st.queued + 1⟩
  let stAcquired : QState := ⟨stQueued.slots - 1, stQueued.queued⟩
  let stRunning : QState := ⟨stAcquired.slots, stAcquired.queued - 1⟩
  let outcome : Except String Unit :=
    match body with
    | .ok u => .ok u
    | .error e => .error e
  let stReleased : QState := ⟨stRunning.slots + 1, stRunning.queued⟩
  (stReleased, outcome)

/-- C9: every job admitted through `queued_analysis` releases its
concurrency-limiter slot on every exit path — whether the body returns
normally or raises — so the semaphore count is restored after each job and
no slot is permanently leaked (and the queue-size counter is restored too).
Admission requires an available slot (`0 < st.slots`). -/
theorem queued_analysis_releases_slot (st : QState) (body : Except String Unit)
    (h : 0 < st.slots) :
    (queued_analysis st body).1.slots = st.slots ∧
    (queued_analysis st body).1.queued = st.queued ∧
    (∀ u, body = .ok u → (queued_analysis st body).2 = .ok u) ∧
    (∀ e, body = .error e → (queued_analysis st body).2 = .error e) := by
  cases body with
  | ok u =>
    refine ⟨?_, ?_, ?_, ?_⟩
    · simp only [queued_analysis]; omega
    · simp only [queued_analysis]; omega
    · intro u2 hu; cases hu; rfl
    · intro e he; cases he
  | error e =>
    refine ⟨?_, ?_, ?_, ?_⟩
    · simp only [queued_analysis]; omega
    · simp only [queued_analysis]; omega
    · intro u hu; cases hu
    · intro e2 he; cases he; rfl

/-- Witness for C9 at capacity 3 with an idle queue, on a raising body:
the slot count is restored to 3 and the error propagates. -/
theorem queued_analysis_releases_slot_witness :
    0 < (⟨3, 0⟩ : QState).slots ∧
    (queued_analysis ⟨3, 0⟩ (.error "boom")).1.slots = (⟨3, 0⟩ : QState).slots ∧
    (queued_analysis ⟨3, 0⟩ (.error "boom")).2 = .error "boom" := by
  have h := queued_analysis_releases_slot ⟨3, 0⟩ (.error "boom") (by decide)
  exact ⟨by decide, h.1, h.2.2.2 "boom" rfl⟩

end MainQueue

namespace Database

/-- Row of the `screenplay_analyses` table as far as status tracking is
concerned: the `status` and `error_message` columns, plus the remaining
columns carried opaquely as an association list. -/
structure StoredAnalysis where
  status : Option String
  errorMessage : Option String
  fields : List (String × Option String)
  deriving Repr, DecidableEq

/-- The Result Store: keyed storage of analysis rows by analysis id. -/
def Store : Type := String → Option StoredAnalysis

/-- Embedding of `database.update_analysis_status` (database.py lines
640-659): `UPDATE screenplay_analyses SET status = %s [, error_message = %s]
WHERE id = %s` — the status column is written unconditionally whenever the
row exists; with no error message supplied only the status is written. -/
def update_analysis_status (store : Store) (analysis_id : String) (status : String)
    (error_message : Option String) : Store :=
  fun k =>
    if k = analysis_id then
      match store analysis_id with
      | some rec =>
        match error_message with
        | some em => some { rec with status := some status, errorMessage := some em }
        | none => some { rec with status := some status }
      | none => none
    else store k

/-- Embedding of the `database.save_analysis` upsert (database.py lines
448-466 and the `ON DUPLICATE KEY UPDATE ... status = VALUES(status)`
clause): the full row, its status column included, is inserted or
overwritten unconditionally for the given id. -/
def save_analysis (store : Store) (analysis_id : String) (data : StoredAnalysis) :
    Store :=
  fun k => if k = analysis_id then some data else store k

/-- A Job State is terminal when it is `completed` or `error`. -/
def isTerminal (status : Option String) : Prop :=
  status = some "completed" ∨ status = some "error"

/-- Counterexample to C2: a store holding a `completed` row for id "a" is
overwritten to `processing` by a later `update_analysis_status` call — the
terminal state is not protected by any guard. -/
theorem terminal_status_overwritten :
    isTerminal ((fun k => if k = "a" then some ⟨some "completed", none, []⟩ else none :
        Store) "a" |>.map StoredAnalysis.status |>.join) ∧
    (update_analysis_status
        (fun k => if k = "a" then some ⟨some "completed", none, []⟩ else none)
        "a" "processing" none) "a" = some ⟨some "processing", none, []⟩ := by
  constructor
  · left; rfl
  · rfl

/-- C2 (amended): the status writes are unconditional last-write-wins — after
`update_analysis_status` the stored status equals the newly written status,
and after the `save_analysis` upsert the stored row equals the saved data,
regardless of whether the previous state was terminal.  No terminal-state
guard exists in either code path. -/
theorem status_write_unconditional (store : Store) (analysis_id : String)
    (rec : StoredAnalysis) (h : store analysis_id = some rec)
    (status : String) (em : Option String) (data : StoredAnalysis) :
    ((update_analysis_status store analysis_id status em) analysis_id).map
      StoredAnalysis.status = some (some status) ∧
    (save_analysis store analysis_id data) analysis_id = some data := by
  constructor
  · unfold update_analysis_status
    rw [if_pos rfl, h]
    cases em <;> rfl
  · unfold save_analysis
    rw [if_pos rfl]

/-- Witness for the amended C2 at a concrete one-row store: an `error` row is
overwritten to `processing`, and a save replaces the row wholesale. -/
theorem status_write_unconditional_witness :
    ((update_analysis_status
        (fun k => if k = "j1" then some ⟨some "error", some "boom", []⟩ else none)
        "j1" "processing" none) "j1").map StoredAnalysis.status = some (some "processing") ∧
    (save_analysis
        (fun k => if k = "j1" then some ⟨some "error", some "boom", []⟩ else none)
        "j1" ⟨some "completed", none, []⟩) "j1" = some ⟨some "completed", none, []⟩ :=
  status_write_unconditional
    (fun k => if k = "j1" then some ⟨some "error", some "boom", []⟩ else none)
    "j1" ⟨some "error", some "boom", []⟩ rfl "processing" none ⟨some "completed", none, []⟩

end Database

namespace MainProgress

/-- One progress snapshot as read by the stream: the entry's stage name,
numeric progress and write timestamp (main.py `update_progress` payload;
`details`/`message` carry no control flow and are elided). -/
structure Snap where
  stage : String
  progress : ℤ
  timestamp : ℚ
  deriving Repr, DecidableEq

/-- Embedding of `get_progress` (main.py lines 106-114): a missing entry is
replaced by the default `unknown` snapshot stamped with the current clock
(`'timestamp': time.time()`). -/
def get_progress (entry : Option Snap) (now : ℚ) : Snap :=
  match entry with
  | some e => e
  | none => ⟨"unknown", 0, now⟩

/-- Mutable state of the `progress_stream` loop: `last_update` and
`timeout_count`. -/
structure StreamState where
  lastUpdate : ℚ
  timeoutCount : ℕ
  deriving Repr, DecidableEq

/-- Status after a number of loop iterations: still polling, or the
generator has stopped. -/
inductive StreamStatus where
  | running (st : StreamState)
  | halted
  deriving Repr, DecidableEq

/-- Stream timeout cap of `progress_stream`: `max_timeout = 600`. -/
def max_timeout : ℕ := 600

/-- One iteration of the `progress_stream` polling loop (main.py lines
129-153).  The `while timeout_count < max_timeout` guard is checked first;
a snapshot with a fresh timestamp is emitted, resets the timeout counter
and stops the stream when `progress >= 100` or the stage is terminal;
otherwise the timeout counter is incremented (heartbeat yields do not
change the state). -/
def stepOnce (snap : Snap) (st : StreamState) : StreamStatus :=
  if max_timeout ≤ st.timeoutCount then .halted
  else if st.lastUpdate < snap.timestamp then
    if 100 ≤ snap.progress ∨ snap.stage = "complete" ∨ snap.stage = "error" then
      .halted
    else
      .running ⟨snap.timestamp, 0⟩
  else
    .running ⟨st.lastUpdate, st.timeoutCount + 1⟩

/-- Run the polling loop for `fuel` iterations starting at iteration `i`:
`store j` is the progress-store entry for this analysis id at iteration `j`
and `clock j` the wall clock then. -/
def streamRunFrom (store : ℕ → Option Snap) (clock : ℕ → ℚ) :
    ℕ → StreamState → ℕ → StreamStatus
  | _, st, 0 => .running st
  | i, st, fuel + 1 =>
    match stepOnce (get_progress (store i) (clock i)) st with
    | .halted => .halted
    | .running st2 => streamRunFrom store clock (i + 1) st2 fuel

/-- Initial loop state: `last_update = 0`, `timeout_count = 0`. -/
def initState : StreamState := ⟨0, 0⟩

end MainProgress

namespace MainProgress

/-- With no stored entry for the analysis id and a strictly advancing clock,
every poll fabricates a fresh-timestamped default snapshot, the timeout
counter is reset each iteration, and the loop never halts. -/
theorem stream_never_halts_aux :
    ∀ fuel i, streamRunFrom (fun _ => none) (fun j => (j : ℚ) + 1) i
      ⟨(i : ℚ), 0⟩ fuel ≠ .halted := by
  intro fuel
  induction fuel with
  | zero => intro i; simp [streamRunFrom]
  | succ n ih =>
    intro i
    have hstep : stepOnce (get_progress none ((i : ℚ) + 1)) ⟨(i : ℚ), 0⟩ =
        .running ⟨(i : ℚ) + 1, 0⟩ := by
      simp only [stepOnce, get_progress, max_timeout]
      rw [if_neg (by norm_num), if_pos (by norm_num), if_neg (by decide)]
    rw [streamRunFrom]
    simp only [hstep]
    have hcast : ((i : ℚ) + 1) = ((i + 1 : ℕ) : ℚ) := by push_cast; ring
    rw [hcast]
    exact ih (i + 1)

/-- Counterexample to C8 as stated: the generator does not always terminate.
For a job id that never gets a progress entry (so `get_progress` stamps a
fresh default each poll), no number of iterations ever halts the stream —
the timeout counter is reset by every freshly fabricated snapshot. -/
theorem progress_stream_can_run_forever :
    ¬ ∃ n, streamRunFrom (fun _ => none) (fun j => (j : ℚ) + 1) 0 initState n
      = .halted := by
  rintro ⟨n, hn⟩
  have h := stream_never_halts_aux n 0
  apply h
  have hcast : ((0 : ℕ) : ℚ) = 0 := by norm_num
  rw [hcast]
  exact hn

/-- Countdown lemma: once the store stops producing snapshots newer than
`lu`, the loop halts within `max_timeout - timeoutCount + 1` iterations. -/
theorem stream_countdown (store : ℕ → Option Snap) (clock : ℕ → ℚ) :
    ∀ fuel i lu t,
      (∀ j, i ≤ j → (get_progress (store j) (clock j)).timestamp ≤ lu) →
      t ≤ max_timeout → max_timeout < t + fuel →
      streamRunFrom store clock i ⟨lu, t⟩ fuel = .halted := by
  intro fuel
  induction fuel with
  | zero =>
    intro i lu t hno ht hlt
    exact absurd hlt (by omega)
  | succ n ih =>
    intro i lu t hno ht hlt
    rw [streamRunFrom]
    by_cases hguard : max_timeout ≤ t
    · have hstep : stepOnce (get_progress (store i) (clock i)) ⟨lu, t⟩ = .halted := by
        simp only [stepOnce]
        rw [if_pos hguard]
      rw [hstep]
    · have hts := hno i (le_refl i)
      have hstep : stepOnce (get_progress (store i) (clock i)) ⟨lu, t⟩ =
          .running ⟨lu, t + 1⟩ := by
        simp only [stepOnce]
        rw [if_neg hguard, if_neg (not_lt.mpr hts)]
      rw [hstep]
      exact ih (i + 1) lu (t + 1) (fun j hj => hno j (by omega)) (by omega) (by omega)

/-- C8 (amended): the stream stops immediately on emitting a new snapshot
with progress >= 100 or a terminal stage, and — provided the id has a stored
progress entry that never changes again — it halts within 602 iterations
(one possible initial emission plus the 600-poll timeout).  Without a stored
entry the default snapshot is freshly stamped at every poll and the stream can run
forever (see the counterexample). -/
theorem progress_stream_bounded_termination
    (store : ℕ → Option Snap) (clock : ℕ → ℚ) (snap0 : Snap)
    (hconst : ∀ j, store j = some snap0) :
    (∀ snap st, st.timeoutCount < max_timeout →
      st.lastUpdate < snap.timestamp →
      (100 ≤ snap.progress ∨ snap.stage = "complete" ∨ snap.stage = "error") →
      stepOnce snap st = .halted) ∧
    streamRunFrom store clock 0 initState 602 = .halted := by
  constructor
  · intro snap st h1 h2 h3
    simp only [stepOnce]
    rw [if_neg (by omega), if_pos h2, if_pos h3]
  · show streamRunFrom store clock 0 ⟨0, 0⟩ 602 = .halted
    by_cases hts : snap0.timestamp ≤ (0 : ℚ)
    · exact stream_countdown store clock 602 0 0 0
        (fun j _ => by rw [hconst j]; exact hts) (by norm_num [max_timeout])
        (by norm_num [max_timeout])
    · have h602 : (602 : ℕ) = 601 + 1 := rfl
      rw [h602, streamRunFrom]
      by_cases hterm : (100 ≤ (get_progress (store 0) (clock 0)).progress ∨
          (get_progress (store 0) (clock 0)).stage = "complete" ∨
          (get_progress (store 0) (clock 0)).stage = "error")
      · have hstep : stepOnce (get_progress (store 0) (clock 0)) ⟨0, 0⟩ = .halted := by
          simp only [stepOnce]
          rw [if_neg (by simp [max_timeout]), if_pos ?hnew, if_pos hterm]
          case hnew => rw [hconst 0]; simpa [get_progress] using not_le.mp hts
        rw [hstep]
      · have hstep : stepOnce (get_progress (store 0) (clock 0)) ⟨0, 0⟩ =
            .running ⟨(get_progress (store 0) (clock 0)).timestamp, 0⟩ := by
          simp only [stepOnce]
          rw [if_neg (by simp [max_timeout]), if_pos ?hnew2, if_neg hterm]
          case hnew2 => rw [hconst 0]; simpa [get_progress] using not_le.mp hts
        rw [hstep]
        exact stream_countdown store clock 601 1 _ 0
          (fun j _ => by rw [hconst j, hconst 0]; simp [get_progress])
          (by norm_num [max_timeout]) (by norm_num [max_timeout])

/-- Witness for the amended C8: a fresh terminal snapshot halts the stream at
once, and with a constant non-terminal entry the stream halts within 602
iterations. -/
theorem progress_stream_bounded_termination_witness :
    stepOnce ⟨"complete", 100, 5⟩ ⟨0, 0⟩ = .halted ∧
    streamRunFrom (fun _ => some ⟨"parallel_analysis", 50, 1⟩) (fun _ => 0) 0
      initState 602 = .halted := by
  have h := progress_stream_bounded_termination
    (fun _ => some ⟨"parallel_analysis", 50, 1⟩) (fun _ => 0)
    ⟨"parallel_analysis", 50, 1⟩ (fun _ => rfl)
  exact ⟨h.1 ⟨"complete", 100, 5⟩ ⟨0, 0⟩ (by simp [max_timeout]) (by norm_num)
    (Or.inl (by norm_num)), h.2⟩

end MainProgress

namespace PyJson

/-- The structural characters written via their code points. -/
def openBrace : Char := Char.ofNat 123

/-- Closing curly brace. -/
def closeBrace : Char := Char.ofNat 125

/-- Double-quote character. -/
def quoteChar : Char := Char.ofNat 34

/-- Backslash character. -/
def backslashChar : Char := Char.ofNat 92

/-- JSON values (the structures produced by Python's `json.loads`). -/
inductive Json where
  | null
  | bool (b : Bool)
  | num (q : ℚ)
  | str (s : String)
  | arr (elems : List Json)
  | obj (members : List (String × Json))

/-- JSON whitespace. -/
def isWs (c : Char) : Bool := c = ' ' || c = '\t' || c = '\n' || c = '\r'

/-- Drop leading JSON whitespace. -/
def skipWs : List Char → List Char
  | [] => []
  | c :: cs => if isWs c then skipWs cs else c :: cs

/-- Decimal digit test. -/
def isDigitCh (c : Char) : Bool := '0' ≤ c && c ≤ '9'

/-- Hexadecimal digit value. -/
def hexVal (c : Char) : Option ℕ :=
  if '0' ≤ c && c ≤ '9' then some (c.toNat - 48)
  else if 'a' ≤ c && c ≤ 'f' then some (c.toNat - 87)
  else if 'A' ≤ c && c ≤ 'F' then some (c.toNat - 55)
  else none

/-- Numeric value of a digit list. -/
def digitsToNat (ds : List Char) : ℕ :=
  ds.foldl (fun acc c => acc * 10 + (c.toNat - 48)) 0

/-- Parse the body of a JSON string after the opening quote, handling the
escape sequences of the grammar; unescaped control characters are rejected
as `json.loads` does in strict mode. -/
def parseStringBody : ℕ → List Char → Option (List Char × List Char)
  | 0, _ => none
  | _, [] => none
  | fuel + 1, c :: cs =>
    if c = quoteChar then some ([], cs)
    else if c = backslashChar then
      match cs with
      | [] => none
      | e :: cs2 =>
        if e = quoteChar then
          (parseStringBody fuel cs2).map (fun p => (quoteChar :: p.1, p.2))
        else if e = backslashChar then
          (parseStringBody fuel cs2).map (fun p => (backslashChar :: p.1, p.2))
        else if e = '/' then
          (parseStringBody fuel cs2).map (fun p => ('/' :: p.1, p.2))
        else if e = 'b' then
          (parseStringBody fuel cs2).map (fun p => (Char.ofNat 8 :: p.1, p.2))
        else if e = 'f' then
          (parseStringBody fuel cs2).map (fun p => (Char.ofNat 12 :: p.1, p.2))
        else if e = 'n' then
          (parseStringBody fuel cs2).map (fun p => ('\n' :: p.1, p.2))
        else if e = 'r' then
          (parseStringBody fuel cs2).map (fun p => (Char.ofNat 13 :: p.1, p.2))
        else if e = 't' then
          (parseStringBody fuel cs2).map (fun p => ('\t' :: p.1, p.2))
        else if e = 'u' then
          match cs2 with
          | h1 :: h2 :: h3 :: h4 :: cs3 =>
            match hexVal h1, hexVal h2, hexVal h3, hexVal h4 with
            | some v1, some v2, some v3, some v4 =>
              (parseStringBody fuel cs3).map
                (fun p => (Char.ofNat (((v1 * 16 + v2) * 16 + v3) * 16 + v4) :: p.1, p.2))
            | _, _, _, _ => none
          | _ => none
        else none
    else if c.toNat < 32 then none
    else (parseStringBody fuel cs).map (fun p => (c :: p.1, p.2))

/-- Parse a JSON number (sign, integer part without leading zeros, optional
fraction, optional exponent) into a rational. -/
def parseNumber (input : List Char) : Option (Json × List Char) :=
  let (neg, r1) :=
    match input with
    | '-' :: rest => (true, rest)
    | _ => (false, input)
  let intDs := r1.takeWhile isDigitCh
  let r2 := r1.dropWhile isDigitCh
  if intDs.isEmpty then none
  else if intDs.length > 1 && intDs.headI = '0' then none
  else
    let (fracDs, r3) :=
      match r2 with
      | '.' :: rest => (rest.takeWhile isDigitCh, rest.dropWhile isDigitCh)
      | _ => ([], r2)
    if r2.headI = '.' && fracDs.isEmpty then none
    else
      let hasExp := r3.headI = 'e' || r3.headI = 'E'
      let (expNeg, expDs, r4) :=
        match r3 with
        | 'e' :: '-' :: rest => (true, rest.takeWhile isDigitCh, rest.dropWhile isDigitCh)
        | 'E' :: '-' :: rest => (true, rest.takeWhile isDigitCh, rest.dropWhile isDigitCh)
        | 'e' :: '+' :: rest => (false, rest.takeWhile isDigitCh, rest.dropWhile isDigitCh)
        | 'E' :: '+' :: rest => (false, rest.takeWhile isDigitCh, rest.dropWhile isDigitCh)
        | 'e' :: rest => (false, rest.takeWhile isDigitCh, rest.dropWhile isDigitCh)
        | 'E' :: rest => (false, rest.takeWhile isDigitCh, rest.dropWhile isDigitCh)
        | _ => (false, [], r3)
      if hasExp && expDs.isEmpty then none
      else
        let mantissa : ℚ :=
          (digitsToNat intDs : ℚ) + (digitsToNat fracDs : ℚ) / (10 : ℚ) ^ fracDs.length
        let scaled : ℚ :=
          if expNeg then mantissa / (10 : ℚ) ^ digitsToNat expDs
          else mantissa * (10 : ℚ) ^ digitsToNat expDs
        some (Json.num (if neg then -scaled else scaled), r4)

/-- Match a literal keyword. -/
def expectChars : List Char → List Char → Option (List Char)
  | [], rest => some rest
  | k :: ks, c :: cs => if c = k then expectChars ks cs else none
  | _ :: _, [] => none

mutual

/-- Parse one JSON value (fuelled recursive-descent model of `json.loads`). -/
def parseValue : ℕ → List Char → Option (Json × List Char)
  | 0, _ => none
  | fuel + 1, input =>
    match skipWs input with
    | [] => none
    | c :: rest =>
      if c = openBrace then parseObj fuel rest
      else if c = '[' then parseArr fuel rest
      else if c = quoteChar then
        (parseStringBody (rest.length + 1) rest).map
          (fun p => (Json.str (String.mk p.1), p.2))
      else if c = 't' then
        (expectChars ['r', 'u', 'e'] rest).map (fun r => (Json.bool true, r))
      else if c = 'f' then
        (expectChars ['a', 'l', 's', 'e'] rest).map (fun r => (Json.bool false, r))
      else if c = 'n' then
        (expectChars ['u', 'l', 'l'] rest).map (fun r => (Json.null, r))
      else parseNumber (c :: rest)

/-- Parse an object body after the opening brace. -/
def parseObj : ℕ → List Char → Option (Json × List Char)
  | 0, _ => none
  | fuel + 1, input =>
    match skipWs input with
    | [] => none
    | c :: rest =>
      if c = closeBrace then some (Json.obj [], rest)
      else (parseMembers fuel (c :: rest)).map (fun p => (Json.obj p.1, p.2))

/-- Parse object members: `"key": value` pairs separated by commas, ended by
the closing brace. -/
def parseMembers : ℕ → List Char → Option (List (String × Json) × List Char)
  | 0, _ => none
  | fuel + 1, input =>
    match skipWs input with
    | [] => none
    | c :: rest =>
      if c = quoteChar then
        match parseStringBody (rest.length + 1) rest with
        | none => none
        | some (key, r1) =>
          match skipWs r1 with
          | ':' :: r2 =>
            match parseValue fuel r2 with
            | none => none
            | some (v, r3) =>
              match skipWs r3 with
              | ',' :: r4 =>
                (parseMembers fuel r4).map
                  (fun p => ((String.mk key, v) :: p.1, p.2))
              | d :: r4 =>
                if d = closeBrace then some ([(String.mk key, v)], r4) else none
              | [] => none
          | _ => none
      else none

/-- Parse an array body after the opening bracket. -/
def parseArr : ℕ → List Char → Option (Json × List Char)
  | 0, _ => none
  | fuel + 1, input =>
    match skipWs input with
    | [] => none
    | c :: rest =>
      if c = ']' then some (Json.arr [], rest)
      else (parseElems fuel (c :: rest)).map (fun p => (Json.arr p.1, p.2))

/-- Parse array elements separated by commas, ended by the closing bracket. -/
def parseElems : ℕ → List Char → Option (List Json × List Char)
  | 0, _ => none
  | fuel + 1, input =>
    match parseValue fuel input with
    | none => none
    | some (v, r1) =>
      match skipWs r1 with
      | ',' :: r2 => (parseElems fuel r2).map (fun p => (v :: p.1, p.2))
      | ']' :: r2 => some ([v], r2)
      | _ => none

end

/-- Model of Python's `json.loads`: parse one JSON value and require only
whitespace to remain. -/
def loads (s : String) : Option Json :=
  match parseValue (4 * s.toList.length + 8) s.toList with
  | some (v, rest) => if (skipWs rest).isEmpty then some v else none
  | none => none

end PyJson

namespace JsonRepair

/-- Embedding of `_fix_truncated_json` (grok_analyzer.py lines 376-400 and
the identical gpt5_analyzer.py lines 370-393): count opening and closing
braces/brackets and double quotes over the whole text, close an odd quote,
then append the missing closing brackets and braces. -/
def fix_truncated_json (json_str : String) : String :=
  let cs := json_str.toList
  let open_braces := cs.count PyJson.openBrace
  let close_braces := cs.count PyJson.closeBrace
  let open_brackets := cs.count '['
  let close_brackets := cs.count ']'
  let cs1 := if cs.count PyJson.quoteChar % 2 = 1 then cs ++ [PyJson.quoteChar] else cs
  let cs2 := cs1 ++ List.replicate (open_brackets - close_brackets) ']'
  let cs3 := cs2 ++ List.replicate (open_braces - close_braces) PyJson.closeBrace
  String.mk cs3

end JsonRepair

namespace JsonRepair

/-- Sanity example: the repair appends one closing brace to the valid JSON
text `{"a": "{"}` because the brace inside the string literal is counted. -/
theorem fix_example :
    fix_truncated_json "\x7b\"a\": \"\x7b\"\x7d" = "\x7b\"a\": \"\x7b\"\x7d\x7d" := by
  rfl

end JsonRepair

namespace JsonRepair

/-- Counterexample to C3: the string `{"a": "{"}` is valid JSON (it parses to
the object mapping "a" to the one-character string "\x7b"), yet the repair
function counts the brace inside the string literal, appends a spurious
closing brace, and the repaired text no longer parses at all. -/
theorem repair_breaks_valid_json :
    PyJson.loads "\x7b\"a\": \"\x7b\"\x7d"
      = some (PyJson.Json.obj [("a", PyJson.Json.str "\x7b")]) ∧
    PyJson.loads (fix_truncated_json "\x7b\"a\": \"\x7b\"\x7d") = none := by
  constructor <;> rfl

end JsonRepair

namespace JsonRepair

/-- C3 (amended): the repair function is the literal identity — hence
semantically the identity — on every string whose double-quote count is even
and which has no surplus of opening brackets or braces over closing ones
(counted textually, string literals included).  On valid JSON outside this
class, such as `{"a": "{"}`, the appended closers can destroy parseability. -/
theorem fix_truncated_json_id_of_balanced (s : String)
    (hq : s.toList.count PyJson.quoteChar % 2 = 0)
    (hbk : s.toList.count '[' ≤ s.toList.count ']')
    (hbr : s.toList.count PyJson.openBrace ≤ s.toList.count PyJson.closeBrace) :
    fix_truncated_json s = s ∧
    ∀ v, PyJson.loads s = some v → PyJson.loads (fix_truncated_json s) = some v := by
  have h1 : ¬ s.toList.count PyJson.quoteChar % 2 = 1 := by omega
  have hid : fix_truncated_json s = s := by
    simp only [fix_truncated_json]
    rw [if_neg h1, Nat.sub_eq_zero_of_le hbk, Nat.sub_eq_zero_of_le hbr]
    simp
  exact ⟨hid, fun v hv => by rw [hid]; exact hv⟩

/-- Witness for the amended C3 at the valid JSON text `{"a": "b"}`: all
counts are balanced, the repair returns it unchanged, and it still parses to
the same object. -/
theorem fix_truncated_json_id_of_balanced_witness :
    fix_truncated_json "\x7b\"a\": \"b\"\x7d" = "\x7b\"a\": \"b\"\x7d" ∧
    PyJson.loads (fix_truncated_json "\x7b\"a\": \"b\"\x7d")
      = some (PyJson.Json.obj [("a", PyJson.Json.str "b")]) := by
  have h := fix_truncated_json_id_of_balanced "\x7b\"a\": \"b\"\x7d"
    (by rfl) (by decide) (by decide)
  exact ⟨h.1, h.2 (PyJson.Json.obj [("a", PyJson.Json.str "b")]) rfl⟩

end JsonRepair

namespace PyDict

/-- Python runtime values as they occur in the parsed analysis payloads. -/
inductive PyVal where
  | vNone
  | vBool (b : Bool)
  | vNum (q : ℚ)
  | vStr (s : String)
  | vList (xs : List PyVal)
  | vDict (kvs : List (String × PyVal))

/-- A Python dict with string keys, as an ordered association list. -/
abbrev Dict := List (String × PyVal)

/-- Dictionary lookup (`d[k]` / `d.get(k)`). -/
def dlookup (k : String) : Dict → Option PyVal
  | [] => none
  | (k2, v) :: rest => if k2 = k then some v else dlookup k rest

/-- Key-membership test (`k in d`). -/
def containsKey (d : Dict) (k : String) : Bool := (dlookup k d).isSome

/-- Dictionary assignment `d[k] = v`: replace the value in place when the key
exists, append otherwise. -/
def setKey (d : Dict) (k : String) (v : PyVal) : Dict :=
  if containsKey d k then
    d.map (fun kv => if kv.1 = k then (k, v) else kv)
  else d ++ [(k, v)]

/-- Unfolding of lookup on a cons cell. -/
theorem dlookup_cons (k k2 : String) (w : PyVal) (rest : Dict) :
    dlookup k ((k2, w) :: rest) = if k2 = k then some w else dlookup k rest := rfl

/-- Unfolding of the replacement map on a cons cell. -/
theorem map_replace_cons (k k2 : String) (v w : PyVal) (rest : Dict) :
    ((k2, w) :: rest).map (fun kv => if kv.1 = k then (k, v) else kv) =
      (if k2 = k then (k, v) else (k2, w)) ::
        rest.map (fun kv => if kv.1 = k then (k, v) else kv) := rfl

/-- Lookup after in-place replacement. -/
theorem dlookup_map_replace (k : String) (v : PyVal) :
    ∀ d : Dict, dlookup k (d.map (fun kv => if kv.1 = k then (k, v) else kv)) =
      (dlookup k d).map (fun _ => v) := by
  intro d
  induction d with
  | nil => rfl
  | cons kv rest ih =>
    obtain ⟨k2, w⟩ := kv
    rw [map_replace_cons]
    by_cases h : k2 = k
    · rw [if_pos h, dlookup_cons, if_pos rfl, dlookup_cons, if_pos h]
      rfl
    · rw [if_neg h, dlookup_cons, if_neg h, dlookup_cons, if_neg h]
      exact ih

/-- Lookup after in-place replacement, at a different key. -/
theorem dlookup_map_replace_other (k k2 : String) (v : PyVal) (h : k2 ≠ k) :
    ∀ d : Dict, dlookup k2 (d.map (fun kv => if kv.1 = k then (k, v) else kv)) =
      dlookup k2 d := by
  intro d
  induction d with
  | nil => rfl
  | cons kv rest ih =>
    obtain ⟨kh, w⟩ := kv
    rw [map_replace_cons]
    by_cases hk : kh = k
    · rw [if_pos hk, dlookup_cons, if_neg (fun he => h he.symm), dlookup_cons,
        if_neg (fun he => h (hk ▸ he : k = k2).symm)]
      exact ih
    · rw [if_neg hk, dlookup_cons, dlookup_cons]
      by_cases hk2 : kh = k2
      · rw [if_pos hk2, if_pos hk2]
      · rw [if_neg hk2, if_neg hk2]
        exact ih

/-- Lookup distributes over append. -/
theorem dlookup_append (k : String) :
    ∀ d1 d2 : Dict, dlookup k (d1 ++ d2) =
      match dlookup k d1 with
      | some v => some v
      | none => dlookup k d2 := by
  intro d1 d2
  induction d1 with
  | nil => rfl
  | cons kv rest ih =>
    obtain ⟨k2, w⟩ := kv
    by_cases h : k2 = k
    · simp [dlookup, h]
    · simp only [List.cons_append, dlookup, if_neg h]
      exact ih

/-- Assignment then lookup at the same key yields the assigned value. -/
theorem dlookup_setKey_self (d : Dict) (k : String) (v : PyVal) :
    dlookup k (setKey d k v) = some v := by
  unfold setKey containsKey
  by_cases h : (dlookup k d).isSome
  · rw [if_pos h, dlookup_map_replace]
    obtain ⟨w, hw⟩ := Option.isSome_iff_exists.mp h
    rw [hw]; rfl
  · rw [if_neg h, dlookup_append]
    have hnone : dlookup k d = none := Option.not_isSome_iff_eq_none.mp h
    rw [hnone]
    simp [dlookup]

/-- Assignment does not disturb other keys. -/
theorem dlookup_setKey_other (d : Dict) (k k2 : String) (v : PyVal) (h : k2 ≠ k) :
    dlookup k2 (setKey d k v) = dlookup k2 d := by
  unfold setKey containsKey
  by_cases hs : (dlookup k d).isSome
  · rw [if_pos hs, dlookup_map_replace_other k k2 v h]
  · rw [if_neg hs, dlookup_append]
    cases hl : dlookup k2 d with
    | some w => rfl
    | none =>
      simp only [dlookup]
      rw [if_neg (fun he => h he.symm)]

end PyDict

namespace ClaudeAnalyzer

open PyDict

/-- Python `float(str)`: strip whitespace, optional sign, digits with
optional fraction and exponent.  Non-finite literals (`inf`, `nan`) are
outside the model; they do not occur in the claims settled here. -/
def pyStrToFloat (s : String) : Option ℚ :=
  let cs := (s.toList.dropWhile PyJson.isWs).reverse.dropWhile PyJson.isWs |>.reverse
  let (neg, r1) :=
    match cs with
    | '-' :: rest => (true, rest)
    | '+' :: rest => (false, rest)
    | _ => (false, cs)
  let intDs := r1.takeWhile PyJson.isDigitCh
  let r2 := r1.dropWhile PyJson.isDigitCh
  let (fracDs, r3) :=
    match r2 with
    | '.' :: rest => (rest.takeWhile PyJson.isDigitCh, rest.dropWhile PyJson.isDigitCh)
    | _ => ([], r2)
  if intDs.isEmpty && fracDs.isEmpty then none
  else
    let hasExp := r3.headI = 'e' || r3.headI = 'E'
    let (expNeg, expDs, r4) :=
      match r3 with
      | 'e' :: '-' :: rest =>
        (true, rest.takeWhile PyJson.isDigitCh, rest.dropWhile PyJson.isDigitCh)
      | 'E' :: '-' :: rest =>
        (true, rest.takeWhile PyJson.isDigitCh, rest.dropWhile PyJson.isDigitCh)
      | 'e' :: '+' :: rest =>
        (false, rest.takeWhile PyJson.isDigitCh, rest.dropWhile PyJson.isDigitCh)
      | 'E' :: '+' :: rest =>
        (false, rest.takeWhile PyJson.isDigitCh, rest.dropWhile PyJson.isDigitCh)
      | 'e' :: rest => (false, rest.takeWhile PyJson.isDigitCh, rest.dropWhile PyJson.isDigitCh)
      | 'E' :: rest => (false, rest.takeWhile PyJson.isDigitCh, rest.dropWhile PyJson.isDigitCh)
      | _ => (false, [], r3)
    if hasExp && expDs.isEmpty then none
    else if !r4.isEmpty then none
    else
      let mantissa : ℚ :=
        (PyJson.digitsToNat intDs : ℚ) +
          (PyJson.digitsToNat fracDs : ℚ) / (10 : ℚ) ^ fracDs.length
      let scaled : ℚ :=
        if expNeg then mantissa / (10 : ℚ) ^ PyJson.digitsToNat expDs
        else mantissa * (10 : ℚ) ^ PyJson.digitsToNat expDs
      some (if neg then -scaled else scaled)

/-- Python `float(x)` on a runtime value: numbers and booleans convert,
numeric strings are parsed, everything else raises (None/list/dict →
TypeError, non-numeric string → ValueError). -/
def pyFloat : PyVal → Option ℚ
  | .vNum q => some q
  | .vBool b => some (if b then 1 else 0)
  | .vStr s => pyStrToFloat s
  | _ => none

/-- The four accepted recommendations of `_validate_analysis`. -/
def valid_recs : List String := ["Pass", "Consider", "Recommend", "Strong Recommend"]

/-- Default values applied by `_validate_analysis` for missing fields
(claude_analyzer.py lines 390-409). -/
def validationDefaults : Dict :=
  [("overall_score", .vNum 7),
   ("recommendation", .vStr "Consider"),
   ("one_line_verdict", .vStr "A screenplay with potential that needs development."),
   ("executive_summary", .vStr "Analysis in progress."),
   ("structural_analysis", .vStr "Structural assessment pending."),
   ("character_analysis", .vStr "Character evaluation pending."),
   ("thematic_depth", .vStr "Thematic analysis pending."),
   ("craft_evaluation", .vStr "Craft assessment pending."),
   ("genre_mastery", .vStr "Genre analysis pending."),
   ("top_strengths", .vList []),
   ("key_weaknesses", .vList []),
   ("improvement_strategies", .vList []),
   ("commercial_viability", .vStr "Market potential to be determined."),
   ("target_audience", .vStr "General audience."),
   ("comparable_films", .vList []),
   ("casting_vision", .vList []),
   ("confidence", .vNum (3 / 4))]

/-- Apply the defaults for missing keys. -/
def applyDefaults (analysis : Dict) : Dict :=
  validationDefaults.foldl
    (fun acc kd => if containsKey acc kd.1 then acc else setKey acc kd.1 kd.2) analysis

/-- Score-derived recommendation when the provided one is not accepted. -/
def recFromScore (score : ℚ) : String :=
  if score < 5 then "Pass"
  else if score < 7 then "Consider"
  else if score < 17 / 2 then "Recommend"
  else "Strong Recommend"

/-- Membership test `analysis['recommendation'] in valid_recs`: only a string
equal to one of the four names passes. -/
def recValidVal : Option PyVal → Bool
  | some (.vStr s) => decide (s ∈ valid_recs)
  | _ => false

/-- Item filter of the list fields: keep strings whose stripped length
exceeds 5. -/
def keepItem : PyVal → Bool
  | .vStr s => 5 < s.trim.length
  | _ => false

/-- The four list-valued fields cleaned by `_validate_analysis`. -/
def list_fields : List String :=
  ["top_strengths", "key_weaknesses", "improvement_strategies", "comparable_films"]

/-- Clean one list field: a non-list becomes `[]`, then non-string and short
items are dropped (the two Python statements collapse to one filter). -/
def fixListField (acc : Dict) (f : String) : Dict :=
  let xs := match dlookup f acc with | some (.vList xs) => xs | _ => []
  setKey acc f (.vList (xs.filter keepItem))

/-- Clean all four list fields in order. -/
def fixListFields (d : Dict) : Dict := list_fields.foldl fixListField d

/-- Validate one casting suggestion: a dict with `character` and `actors`
keys whose actors value is a list is kept with at most 3 actors and a
defaulted reasoning; everything else is dropped. -/
def castEntry : PyVal → Option PyVal
  | .vDict kvs =>
    match dlookup "character" kvs, dlookup "actors" kvs with
    | some ch, some (.vList actors) =>
      some (.vDict [("character", ch), ("actors", .vList (actors.take 3)),
        ("reasoning", (dlookup "reasoning" kvs).getD (.vStr ""))])
    | _, _ => none
  | _ => none

/-- Clean the casting_vision field: validated suggestions, at most 5. -/
def fixCastingVision (d : Dict) : Dict :=
  let xs := match dlookup "casting_vision" d with | some (.vList xs) => xs | _ => []
  setKey d "casting_vision" (.vList ((xs.filterMap castEntry).take 5))

/-- Final step of `_validate_analysis`: clamp the confidence field
(`analysis['confidence'] = max(0, min(1, float(analysis.get('confidence',
0.75))))`); a conversion failure raises. -/
def validateConfidence (a5 : Dict) : Except String Dict :=
  match pyFloat ((dlookup "confidence" a5).getD (.vNum (3 / 4))) with
  | none => .error "ValueError: could not convert confidence to float"
  | some c => .ok (setKey a5 "confidence" (.vNum (max 0 (min 1 c))))

/-- Recommendation validation step: keep an accepted recommendation,
otherwise derive one from the clamped score. -/
def validateRec (a2 : Dict) (clamped : ℚ) : Dict :=
  if recValidVal (dlookup "recommendation" a2) then a2
  else setKey a2 "recommendation" (.vStr (recFromScore clamped))

/-- Steps of `_validate_analysis` after the score converted to float `q`:
clamp the score, replace an unaccepted recommendation by the score-derived
one, clean the list fields and casting suggestions, clamp the confidence. -/
def validateRest (a1 : Dict) (q : ℚ) : Except String Dict :=
  validateConfidence (fixCastingVision (fixListFields
    (validateRec (setKey a1 "overall_score" (.vNum (max 0 (min 10 q))))
      (max 0 (min 10 q)))))

/-- Embedding of `_validate_analysis` (claude_analyzer.py lines 387-459).
A `float()` conversion failure on the score or confidence fields raises,
modelled by `Except.error`. -/
def validate_analysis (analysis : Dict) : Except String Dict :=
  match dlookup "overall_score" (applyDefaults analysis) with
  | none => .error "KeyError: overall_score"
  | some v =>
    match pyFloat v with
    | none => .error "ValueError: could not convert overall_score to float"
    | some q => validateRest (applyDefaults analysis) q

end ClaudeAnalyzer

namespace ClaudeAnalyzer

open PyDict

/-- Cleaning one list field leaves other keys untouched. -/
theorem fixListField_other (acc : Dict) (f k : String) (h : k ≠ f) :
    dlookup k (fixListField acc f) = dlookup k acc :=
  dlookup_setKey_other acc f k _ h

/-- Cleaning the four list fields leaves other keys untouched. -/
theorem fixListFields_other (d : Dict) (k : String)
    (h1 : k ≠ "top_strengths") (h2 : k ≠ "key_weaknesses")
    (h3 : k ≠ "improvement_strategies") (h4 : k ≠ "comparable_films") :
    dlookup k (fixListFields d) = dlookup k d := by
  unfold fixListFields list_fields
  simp only [List.foldl]
  rw [fixListField_other _ _ _ h4, fixListField_other _ _ _ h3,
    fixListField_other _ _ _ h2, fixListField_other _ _ _ h1]

/-- Cleaning casting_vision leaves other keys untouched. -/
theorem fixCastingVision_other (d : Dict) (k : String) (h : k ≠ "casting_vision") :
    dlookup k (fixCastingVision d) = dlookup k d :=
  dlookup_setKey_other d "casting_vision" k _ h

/-- Inversion of the recommendation membership test. -/
theorem recValidVal_inv (o : Option PyVal) (h : recValidVal o = true) :
    ∃ s, o = some (.vStr s) ∧ s ∈ valid_recs := by
  match o with
  | none => exact absurd h (by simp [recValidVal])
  | some (.vStr s) =>
    refine ⟨s, rfl, ?_⟩
    simpa [recValidVal] using h
  | some .vNone => exact absurd h (by simp [recValidVal])
  | some (.vBool b) => exact absurd h (by simp [recValidVal])
  | some (.vNum q) => exact absurd h (by simp [recValidVal])
  | some (.vList xs) => exact absurd h (by simp [recValidVal])
  | some (.vDict kvs) => exact absurd h (by simp [recValidVal])

/-- The score-derived recommendation is always one of the four names. -/
theorem recFromScore_mem (score : ℚ) : recFromScore score ∈ valid_recs := by
  unfold recFromScore
  split_ifs <;> simp [valid_recs]

/-- Inversion of the confidence-clamping step. -/
theorem validateConfidence_ok (a5 out : Dict) (h : validateConfidence a5 = .ok out) :
    ∃ c, out = setKey a5 "confidence" (PyVal.vNum (max 0 (min 1 c))) := by
  unfold validateConfidence at h
  cases hc : pyFloat ((dlookup "confidence" a5).getD (.vNum (3 / 4))) with
  | none => rw [hc] at h; simp at h
  | some c =>
    rw [hc] at h
    simp only [Except.ok.injEq] at h
    exact ⟨c, h.symm⟩

/-- Bounds propagate from a dict whose score and recommendation fields are
already validated, through the list/casting cleaning and the confidence
clamp. -/
theorem bounds_after_cleanup (a3 out : Dict) (s : ℚ)
    (hscore : dlookup "overall_score" a3 = some (.vNum s))
    (hs0 : 0 ≤ s) (hs10 : s ≤ 10)
    (hrec : ∃ r, dlookup "recommendation" a3 = some (.vStr r) ∧ r ∈ valid_recs)
    (h : validateConfidence (fixCastingVision (fixListFields a3)) = .ok out) :
    (∃ q, dlookup "overall_score" out = some (.vNum q) ∧ 0 ≤ q ∧ q ≤ 10) ∧
    (∃ r, dlookup "recommendation" out = some (.vStr r) ∧ r ∈ valid_recs) ∧
    (∃ c, dlookup "confidence" out = some (.vNum c) ∧ 0 ≤ c ∧ c ≤ 1) := by
  obtain ⟨c, hout⟩ := validateConfidence_ok _ _ h
  subst hout
  refine ⟨⟨s, ?_, hs0, hs10⟩, ?_, ?_⟩
  · rw [dlookup_setKey_other _ _ _ _ (by decide),
      fixCastingVision_other _ _ (by decide),
      fixListFields_other _ _ (by decide) (by decide) (by decide) (by decide)]
    exact hscore
  · obtain ⟨r, hr, hmem⟩ := hrec
    refine ⟨r, ?_, hmem⟩
    rw [dlookup_setKey_other _ _ _ _ (by decide),
      fixCastingVision_other _ _ (by decide),
      fixListFields_other _ _ (by decide) (by decide) (by decide) (by decide)]
    exact hr
  · exact ⟨max 0 (min 1 c), dlookup_setKey_self _ _ _, le_max_left 0 _,
      max_le (by norm_num) (min_le_left 1 c)⟩

/-- Counterexample to C10: on the input `{'overall_score': 'excellent'}` the
function does not return a validated analysis at all — `float('excellent')`
raises, so no bounds can hold of a returned value. -/
theorem validate_analysis_raises_on_nonnumeric :
    validate_analysis [("overall_score", .vStr "excellent")] =
      .error "ValueError: could not convert overall_score to float" := by
  rfl

set_option maxHeartbeats 1000000 in
/-- C10 (amended): whenever `_validate_analysis` returns (i.e. the score and
confidence fields convert to float), the returned analysis satisfies
0 <= overall_score <= 10, recommendation in {Pass, Consider, Recommend,
Strong Recommend}, and 0 <= confidence <= 1. -/
theorem validate_analysis_bounds (d out : Dict)
    (h : validate_analysis d = .ok out) :
    (∃ q, dlookup "overall_score" out = some (.vNum q) ∧ 0 ≤ q ∧ q ≤ 10) ∧
    (∃ r, dlookup "recommendation" out = some (.vStr r) ∧ r ∈ valid_recs) ∧
    (∃ c, dlookup "confidence" out = some (.vNum c) ∧ 0 ≤ c ∧ c ≤ 1) := by
  unfold validate_analysis at h
  split at h
  · simp at h
  · split at h
    · simp at h
    · unfold validateRest validateRec at h
      rename_i v hks q hq
      set a2 := setKey (applyDefaults d) "overall_score"
        (PyVal.vNum (max 0 (min 10 q))) with ha2
      by_cases hrec : recValidVal (dlookup "recommendation" a2) = true
      · rw [if_pos hrec] at h
        obtain ⟨r, hr, hmem⟩ := recValidVal_inv _ hrec
        refine bounds_after_cleanup _ _ (max 0 (min 10 q)) ?_
          (le_max_left 0 _) (max_le (by norm_num) (min_le_left 10 q)) ⟨r, hr, hmem⟩ h
        rw [ha2]
        exact dlookup_setKey_self _ _ _
      · rw [if_neg hrec] at h
        refine bounds_after_cleanup _ _ (max 0 (min 10 q)) ?_
          (le_max_left 0 _) (max_le (by norm_num) (min_le_left 10 q))
          ⟨recFromScore (max 0 (min 10 q)), dlookup_setKey_self _ _ _,
            recFromScore_mem _⟩ h
        rw [dlookup_setKey_other _ _ _ _ (by decide), ha2]
        exact dlookup_setKey_self _ _ _

end ClaudeAnalyzer

namespace ClaudeAnalyzer

end ClaudeAnalyzer

namespace ClaudeAnalyzer

set_option maxHeartbeats 1000000 in
/-- Witness for the amended C10: the out-of-range input score 12 is clamped
into bounds, the defaults supply a valid recommendation, and the provided
confidence 1 stays in bounds. -/
theorem validate_analysis_bounds_witness :
    ∃ out, validate_analysis
        [("overall_score", PyDict.PyVal.vNum 12), ("confidence", PyDict.PyVal.vNum 1)]
        = .ok out ∧
      ((∃ q, PyDict.dlookup "overall_score" out = some (.vNum q) ∧ 0 ≤ q ∧ q ≤ 10) ∧
       (∃ r, PyDict.dlookup "recommendation" out = some (.vStr r) ∧ r ∈ valid_recs) ∧
       (∃ c, PyDict.dlookup "confidence" out = some (.vNum c) ∧ 0 ≤ c ∧ c ≤ 1)) := by
  have hok : (validate_analysis
      [("overall_score", PyDict.PyVal.vNum 12),
       ("confidence", PyDict.PyVal.vNum 1)]).isOk = true := by rfl
  cases hv : validate_analysis
      [("overall_score", PyDict.PyVal.vNum 12), ("confidence", PyDict.PyVal.vNum 1)] with
  | error e => rw [hv] at hok; exact absurd hok (by simp [Except.isOk, Except.toBool])
  | ok out => exact ⟨out, rfl, validate_analysis_bounds _ _ hv⟩

end ClaudeAnalyzer

namespace MainOrch

open PyDict

/-- Value stored in the merged `db_data` dictionary.  `py v` is a Python
value stored as-is; `jsonOf v` stands for the string `json.dumps(v)` — the
serializer itself (a stdlib function) is kept uninterpreted, but the value
it was applied to is recorded exactly. -/
inductive DbVal where
  | py (v : PyVal)
  | jsonOf (v : PyVal)

/-- Lookup in a `db_data` association list. -/
def dbGet (k : String) : List (String × DbVal) → Option DbVal
  | [] => none
  | (k2, v) :: rest => if k2 = k then some v else dbGet k rest

/-- `str(x) if x else None` on an optional string. -/
def optStr : Option String → DbVal
  | some s => .py (.vStr s)
  | none => .py .vNone

/-- `json.dumps(x) if x else None` on an optional payload. -/
def optDump : Option PyVal → DbVal
  | some v => .jsonOf v
  | none => .py .vNone

/-- Result of `grok_analyzer.analyze` as used by main.py and
`to_database_format`; dict-valued payload fields are carried as `PyVal`. -/
structure GrokResult where
  score : ℚ
  recommendation : String
  verdict : String
  confidence : ℚ
  raw_response : String
  cultural_reality_check : Option PyVal
  brutal_honesty_assessment : Option PyVal
  controversy_analysis : Option PyVal
  movie_poster_url : Option String
  poster_generation_prompt : Option String
  cost : ℚ
  processing_time : ℚ

/-- The combined `enhanced_analysis` dict of grok's `to_database_format`:
each of the three categories is included when present. -/
def grokEnhanced (r : GrokResult) : List (String × PyVal) :=
  (match r.cultural_reality_check with
   | some v => [("cultural_reality_check", v)] | none => []) ++
  (match r.brutal_honesty_assessment with
   | some v => [("brutal_honesty_assessment", v)] | none => []) ++
  (match r.controversy_analysis with
   | some v => [("controversy_analysis", v)] | none => [])

/-- Embedding of `grok_analyzer.to_database_format` (lines 648-677). -/
def grokToDb (r : GrokResult) : List (String × DbVal) :=
  [("grok_score", .py (.vNum r.score)),
   ("grok_recommendation", .py (.vStr r.recommendation)),
   ("grok_verdict", .py (.vStr r.verdict)),
   ("grok_confidence", .py (.vNum r.confidence)),
   ("grok_raw_response", .py (.vStr r.raw_response)),
   ("grok_cultural_analysis",
     if (grokEnhanced r).isEmpty then .py .vNone else .jsonOf (.vDict (grokEnhanced r))),
   ("grok_brutal_honesty", optDump r.brutal_honesty_assessment),
   ("grok_controversy_analysis", optDump r.controversy_analysis),
   ("grok_movie_poster_url", optStr r.movie_poster_url),
   ("grok_poster_prompt", optStr r.poster_generation_prompt)]

/-- Result of `openai_analyzer.analyze` as used by main.py and
`to_database_format`. -/
structure OpenAIResult where
  score : ℚ
  recommendation : String
  verdict : String
  confidence : ℚ
  raw_response : String
  commercial_assessment : Option PyVal
  technical_craft : Option PyVal
  industry_comparison : Option PyVal
  movie_poster_url : Option String
  poster_generation_prompt : Option String
  cost : ℚ
  processing_time : ℚ

/-- Embedding of `openai_analyzer.to_database_format` (lines 556-576). -/
def openaiToDb (r : OpenAIResult) : List (String × DbVal) :=
  [("openai_score", .py (.vNum r.score)),
   ("openai_recommendation", .py (.vStr r.recommendation)),
   ("openai_verdict", .py (.vStr r.verdict)),
   ("openai_confidence", .py (.vNum r.confidence)),
   ("openai_raw_response", .py (.vStr r.raw_response)),
   ("openai_commercial_assessment", optDump r.commercial_assessment),
   ("openai_technical_craft", optDump r.technical_craft),
   ("openai_industry_comparison", optDump r.industry_comparison),
   ("openai_movie_poster_url", optStr r.movie_poster_url),
   ("openai_poster_prompt", optStr r.poster_generation_prompt)]

/-- Result of `gpt5_analyzer.analyze` as used by main.py and
`to_database_format`. -/
structure GPT5Result where
  score : ℚ
  recommendation : String
  executive_assessment : String
  reasoning_depth : String
  reasoning_tokens : ℚ
  confidence : ℚ
  processing_time : ℚ
  cost : ℚ
  raw_response : String
  character_voice_analysis : Option PyVal
  dialogue_authenticity : Option PyVal
  prose_quality : Option PyVal
  emotional_beat_mapping : Option PyVal
  professional_markers : Option PyVal
  amateur_indicators : Option PyVal
  industry_comparison : Option PyVal

/-- Embedding of `gpt5_analyzer.to_database_format` (lines 463-494): nine
base columns, plus one serialized column per writing-excellence category
that is present. -/
def gpt5ToDb (r : GPT5Result) : List (String × DbVal) :=
  [("gpt5_score", .py (.vNum r.score)),
   ("gpt5_recommendation", .py (.vStr r.recommendation)),
   ("gpt5_executive_assessment", .py (.vStr r.executive_assessment)),
   ("gpt5_reasoning_depth", .py (.vStr r.reasoning_depth)),
   ("gpt5_reasoning_tokens", .py (.vNum r.reasoning_tokens)),
   ("gpt5_confidence", .py (.vNum r.confidence)),
   ("gpt5_processing_time", .py (.vNum r.processing_time)),
   ("gpt5_cost", .py (.vNum r.cost)),
   ("gpt5_raw_response", .py (.vStr r.raw_response))] ++
  (match r.character_voice_analysis with
   | some v => [("gpt5_character_voice_analysis", DbVal.jsonOf v)] | none => []) ++
  (match r.dialogue_authenticity with
   | some v => [("gpt5_dialogue_authenticity", DbVal.jsonOf v)] | none => []) ++
  (match r.prose_quality with
   | some v => [("gpt5_prose_quality", DbVal.jsonOf v)] | none => []) ++
  (match r.emotional_beat_mapping with
   | some v => [("gpt5_emotional_beat_mapping", DbVal.jsonOf v)] | none => []) ++
  (match r.professional_markers with
   | some v => [("gpt5_professional_markers", DbVal.jsonOf v)] | none => []) ++
  (match r.amateur_indicators with
   | some v => [("gpt5_amateur_indicators", DbVal.jsonOf v)] | none => []) ++
  (match r.industry_comparison with
   | some v => [("gpt5_industry_comparison", DbVal.jsonOf v)] | none => [])

end MainOrch

namespace MainOrch

open PyDict

/-- Result of `deepseek_analyzer.analyze_financial_potential` as used by
main.py and `to_database_format`; the numeric and string columns of the
dataclass are non-optional there, which makes the defensive
`if ... is not None` guards of `to_database_format` vacuous. -/
structure DeepSeekResult where
  box_office_prediction : Option PyVal
  budget_optimization : Option PyVal
  roi_analysis : Option PyVal
  risk_assessment : Option PyVal
  production_optimization : Option PyVal
  platform_analysis : Option PyVal
  overall_financial_score : ℚ
  confidence_level : ℚ
  recommendation : String
  cost : ℚ
  processing_time : ℚ
  success : Bool
  error_message : Option String
  raw_response : String

/-- Embedding of `deepseek_analyzer.to_database_format` (lines 602-619). -/
def deepseekToDb (r : DeepSeekResult) : List (String × DbVal) :=
  [("deepseek_box_office_prediction", optDump r.box_office_prediction),
   ("deepseek_budget_optimization", optDump r.budget_optimization),
   ("deepseek_roi_analysis", optDump r.roi_analysis),
   ("deepseek_risk_assessment", optDump r.risk_assessment),
   ("deepseek_production_optimization", optDump r.production_optimization),
   ("deepseek_platform_analysis", optDump r.platform_analysis),
   ("deepseek_financial_score", .py (.vNum r.overall_financial_score)),
   ("deepseek_confidence", .py (.vNum r.confidence_level)),
   ("deepseek_recommendation", .py (.vStr r.recommendation)),
   ("deepseek_cost", .py (.vNum r.cost)),
   ("deepseek_processing_time", .py (.vNum r.processing_time)),
   ("deepseek_success", .py (.vBool r.success)),
   ("deepseek_error_message", optStr r.error_message),
   ("deepseek_raw_response", .py (.vStr r.raw_response))]

/-- Result of `perplexity_analyzer.research_market_intelligence` as used by
main.py and `to_database_format`. -/
structure PerplexityResult where
  market_trends : Option PyVal
  competitive_landscape : Option PyVal
  recent_industry_data : Option PyVal
  platform_strategies : Option PyVal
  star_power_analysis : Option PyVal
  budget_benchmarks : Option PyVal
  sources_cited : Option PyVal
  market_opportunity_score : ℚ
  competitive_advantage : Option String
  market_recommendation : String
  cost : ℚ
  processing_time : ℚ
  research_date : Option String
  data_freshness : Option String
  success : Bool
  error_message : Option String

/-- Embedding of `perplexity_analyzer.to_database_format` (lines 169-188). -/
def perplexityToDb (r : PerplexityResult) : List (String × DbVal) :=
  [("perplexity_market_trends", optDump r.market_trends),
   ("perplexity_competitive_analysis", optDump r.competitive_landscape),
   ("perplexity_industry_reports", optDump r.recent_industry_data),
   ("perplexity_distribution_strategy", optDump r.platform_strategies),
   ("perplexity_talent_intelligence", optDump r.star_power_analysis),
   ("perplexity_financial_intelligence", optDump r.budget_benchmarks),
   ("perplexity_sources_cited", optDump r.sources_cited),
   ("perplexity_market_score", .py (.vNum r.market_opportunity_score)),
   ("perplexity_competitive_advantage", optStr r.competitive_advantage),
   ("perplexity_recommendation", .py (.vStr r.market_recommendation)),
   ("perplexity_cost", .py (.vNum r.cost)),
   ("perplexity_processing_time", .py (.vNum r.processing_time)),
   ("perplexity_research_date", optStr r.research_date),
   ("perplexity_data_freshness", optStr r.data_freshness),
   ("perplexity_success", .py (.vBool r.success)),
   ("perplexity_error_message", optStr r.error_message)]

/-- One poster variation of `poster_manager`. -/
structure PosterVariation where
  source : Option String
  style : Option String
  url : Option String
  prompt : Option String
  cost : ℚ
  success : Bool
  processing_time : ℚ
  error_message : Option String

/-- Poster collection of `poster_manager.generate_poster_collection`. -/
structure PosterCollection where
  title : Option String
  genre : Option String
  total_cost : ℚ
  total_processing_time : ℚ
  success_count : ℕ
  best_poster_url : Option String
  best_poster_source : Option String
  variations : List PosterVariation

/-- Python-value view of one variation, as serialized into
`poster_variations_json`. -/
def posterVariationPy (v : PosterVariation) : PyVal :=
  .vDict
    [("source", match v.source with | some s => .vStr s | none => .vNone),
     ("style", match v.style with | some s => .vStr s | none => .vNone),
     ("url", match v.url with | some s => .vStr s | none => .vNone),
     ("prompt", match v.prompt with | some s => .vStr s | none => .vNone),
     ("cost", .vNum v.cost),
     ("success", .vBool v.success),
     ("processing_time", .vNum v.processing_time),
     ("error_message", match v.error_message with | some s => .vStr s | none => .vNone)]

/-- Embedding of `poster_manager.to_database_format` (lines 361-387). -/
def posterToDb (c : PosterCollection) : List (String × DbVal) :=
  [("poster_collection_title", optStr c.title),
   ("poster_collection_genre", optStr c.genre),
   ("poster_total_cost", .py (.vNum c.total_cost)),
   ("poster_total_time", .py (.vNum c.total_processing_time)),
   ("poster_success_count", .py (.vNum c.success_count)),
   ("poster_best_url", optStr c.best_poster_url),
   ("poster_best_source", optStr c.best_poster_source),
   ("poster_variations_json", .jsonOf (.vList (c.variations.map posterVariationPy)))]

/-- Result of `source_material_analyzer.analyze_source_material` as used by
main.py and `to_database_format`. -/
structure SourceMaterialResult where
  has_source_material : Bool
  source_type : Option String
  source_title : Option String
  source_author : Option String
  source_description : Option String
  adaptation_notes : Option String
  commercial_implications : Option String
  legal_considerations : Option String
  market_advantages : Option PyVal
  potential_challenges : Option PyVal
  confidence_score : ℚ
  raw_detection_text : String
  processing_time : ℚ
  cost : ℚ
  success : Bool
  error_message : Option String

/-- Embedding of `source_material_analyzer.to_database_format`
(lines 334-353). -/
def sourceToDb (r : SourceMaterialResult) : List (String × DbVal) :=
  [("source_has_material", .py (.vBool r.has_source_material)),
   ("source_type", optStr r.source_type),
   ("source_title", optStr r.source_title),
   ("source_author", optStr r.source_author),
   ("source_description", optStr r.source_description),
   ("source_adaptation_notes", optStr r.adaptation_notes),
   ("source_commercial_implications", optStr r.commercial_implications),
   ("source_legal_considerations", optStr r.legal_considerations),
   ("source_market_advantages", optDump r.market_advantages),
   ("source_potential_challenges", optDump r.potential_challenges),
   ("source_confidence_score", .py (.vNum r.confidence_score)),
   ("source_raw_detection_text", .py (.vStr r.raw_detection_text)),
   ("source_processing_time", .py (.vNum r.processing_time)),
   ("source_cost", .py (.vNum r.cost)),
   ("source_success", .py (.vBool r.success)),
   ("source_error_message", optStr r.error_message)]

end MainOrch

namespace MainOrch

open PyDict

/-- Result of `claude_analyzer.analyze_screenplay` (the `AnalysisResult`
dataclass); list-valued fields are carried as `PyVal`. -/
structure ClaudeResult where
  id : String
  title : String
  genre : String
  detected_genre : Option String
  subgenre : Option String
  overall_score : ℚ
  recommendation : String
  one_line_verdict : String
  logline : String
  executive_summary : String
  top_strengths : PyVal
  key_weaknesses : PyVal
  suggestions : PyVal
  commercial_viability : String
  target_audience : String
  comparable_films : PyVal
  casting_suggestions : PyVal
  director_recommendation : String
  processing_time : ℚ
  ai_model : String
  confidence_level : ℚ
  cost : ℚ
  raw_api_request : Option String
  raw_api_response : Option String

/-- The greedy regex `\x7b[\s\S]*\x7d` of `to_database_format`: the block
from the first opening brace through the last closing brace, if any. -/
def extractBraceBlock (s : String) : Option String :=
  let pre := s.toList.dropWhile (· ≠ PyJson.openBrace)
  if pre.isEmpty then none
  else
    let rev := pre.reverse.dropWhile (· ≠ PyJson.closeBrace)
    if rev.isEmpty then none else some (String.mk rev.reverse)

mutual

/-- Conversion of a parsed JSON value to the Python value it denotes. -/
def jsonToPy : PyJson.Json → PyVal
  | .null => .vNone
  | .bool b => .vBool b
  | .num q => .vNum q
  | .str s => .vStr s
  | .arr xs => .vList (jsonListToPy xs)
  | .obj kvs => .vDict (jsonObjToPy kvs)

/-- Conversion of a JSON array body. -/
def jsonListToPy : List PyJson.Json → List PyVal
  | [] => []
  | x :: xs => jsonToPy x :: jsonListToPy xs

/-- Conversion of a JSON object body. -/
def jsonObjToPy : List (String × PyJson.Json) → List (String × PyVal)
  | [] => []
  | (k, v) :: xs => (k, jsonToPy v) :: jsonObjToPy xs

end

/-- The `analysis_data` dict that claude's `to_database_format` re-extracts
from the raw API response (empty on any extraction/parse failure). -/
def claudePayload (r : ClaudeResult) : List (String × PyVal) :=
  match r.raw_api_response with
  | none => []
  | some raw =>
    match extractBraceBlock raw with
    | none => []
    | some block =>
      match PyJson.loads block with
      | some (.obj kvs) => jsonObjToPy kvs
      | _ => []

/-- `analysis_data.get(key, '')`. -/
def payloadGetStr (p : List (String × PyVal)) (k : String) : PyVal :=
  (dlookup k p).getD (.vStr "")

/-- `analysis_data.get(key, [])`. -/
def payloadGetList (p : List (String × PyVal)) (k : String) : PyVal :=
  (dlookup k p).getD (.vList [])

/-- Embedding of `claude_analyzer.to_database_format` (lines 497-543);
note the constant `'status': 'completed'` column. -/
def claudeToDb (r : ClaudeResult) : List (String × DbVal) :=
  [("id", .py (.vStr r.id)),
   ("title", .py (.vStr r.title)),
   ("genre", .py (.vStr r.genre)),
   ("detected_genre", optStr r.detected_genre),
   ("subgenre", optStr r.subgenre),
   ("overall_score", .py (.vNum r.overall_score)),
   ("recommendation", .py (.vStr r.recommendation)),
   ("one_line_verdict", .py (.vStr r.one_line_verdict)),
   ("logline", .py (.vStr r.logline)),
   ("executive_summary", .py (.vStr r.executive_summary)),
   ("structural_analysis", .py (payloadGetStr (claudePayload r) "structural_analysis")),
   ("character_analysis", .py (payloadGetStr (claudePayload r) "character_analysis")),
   ("thematic_depth", .py (payloadGetStr (claudePayload r) "thematic_depth")),
   ("craft_evaluation", .py (payloadGetStr (claudePayload r) "craft_evaluation")),
   ("genre_mastery", .py (payloadGetStr (claudePayload r) "genre_mastery")),
   ("top_strengths", .jsonOf r.top_strengths),
   ("key_weaknesses", .jsonOf r.key_weaknesses),
   ("suggestions", .jsonOf r.suggestions),
   ("improvement_strategies",
     .jsonOf (payloadGetList (claudePayload r) "improvement_strategies")),
   ("commercial_viability", .py (.vStr r.commercial_viability)),
   ("target_audience", .py (.vStr r.target_audience)),
   ("comparable_films", .jsonOf r.comparable_films),
   ("casting_suggestions", .jsonOf r.casting_suggestions),
   ("casting_vision", .jsonOf (payloadGetList (claudePayload r) "casting_vision")),
   ("director_recommendation", .py (.vStr r.director_recommendation)),
   ("ai_model", .py (.vStr r.ai_model)),
   ("confidence_level", .py (.vNum r.confidence_level)),
   ("processing_time", .py (.vNum r.processing_time)),
   ("cost", .py (.vNum r.cost)),
   ("status", .py (.vStr "completed")),
   ("raw_api_request", optStr r.raw_api_request),
   ("raw_api_response", optStr r.raw_api_response)]

/-- Dict assignment on `db_data` (same semantics as `PyDict.setKey`). -/
def dbSet (d : List (String × DbVal)) (k : String) (v : DbVal) : List (String × DbVal) :=
  if (dbGet k d).isSome then
    d.map (fun kv => if kv.1 = k then (k, v) else kv)
  else d ++ [(k, v)]

/-- Python `db_data.update(entries)`: assign every pair in order. -/
def dbUpdate (d entries : List (String × DbVal)) : List (String × DbVal) :=
  entries.foldl (fun acc kv => dbSet acc kv.1 kv.2) d

/-- The serialization loop of main.py lines 894-900: dict and list values
are replaced by their `json.dumps` string. -/
def serializeVal : DbVal → DbVal
  | .py (.vDict kvs) => .jsonOf (.vDict kvs)
  | .py (.vList xs) => .jsonOf (.vList xs)
  | v => v

/-- Serialize every value of `db_data`. -/
def serializeDb (d : List (String × DbVal)) : List (String × DbVal) :=
  d.map (fun kv => (kv.1, serializeVal kv.2))

end MainOrch

namespace MainOrch

open PyDict

/-- Environment of one `process_text_analysis` run: the request parameters
and the outcome of every awaited call.  Secondary slots are the values the
`asyncio.gather(..., return_exceptions=True)` join delivers: either the
task's exception text or its return value (which is `None` for a disabled
provider). -/
structure Env where
  analysis_id : String
  user_id : String
  fileSize : ℕ
  budgetProvided : Option ℚ
  aiEstimateOutcome : Except String (ℚ × ℚ × ℚ)
  sourceResult : Option SourceMaterialResult
  claudeOutcome : Except String ClaudeResult
  grokOutcome : Except String (Option GrokResult)
  openaiOutcome : Except String (Option OpenAIResult)
  gpt5Outcome : Except String (Option GPT5Result)
  deepseekOutcome : Except String (Option DeepSeekResult)
  perplexityOutcome : Except String (Option PerplexityResult)
  posterOutcome : Except String (Option PosterCollection)
  posterEnabled : Bool
  saveOk : Bool

/-- Conversion of one settled gather slot: an exception is captured and
replaced by `None` (main.py lines 755-757 and analogous handlers). -/
def handleExc {α : Type} : Except String (Option α) → Option α
  | .error _ => none
  | .ok v => v

/-- One usage-ledger entry written through `cost_tracker.track_usage`. -/
structure UsageEntry where
  api_provider : String
  model_name : String
  cost : ℚ
  processing_time : ℚ
  success : Bool
  error_message : Option String
  deriving Repr, DecidableEq

/-- Anthropic entry of the success path (main.py lines 916-924). -/
def anthropicEntry (r : ClaudeResult) : UsageEntry :=
  ⟨"anthropic", "claude-opus-4-1-20250805", r.cost, r.processing_time, true, none⟩

/-- xAI entry, written only when a grok result is present (lines 926-935). -/
def xaiEntry (g : GrokResult) : UsageEntry :=
  ⟨"xai", "grok-4-latest", g.cost, g.processing_time, true, none⟩

/-- OpenAI entry, written only when present (lines 937-946). -/
def openaiEntry (o : OpenAIResult) : UsageEntry :=
  ⟨"openai", "gpt-5", o.cost, o.processing_time, true, none⟩

/-- The single failure entry of the outer exception handler (lines 956-965). -/
def failureEntry (e : String) : UsageEntry :=
  ⟨"anthropic", "claude-opus-4-1-20250805", 0, 0, false, some e⟩

/-- Progress events of the source-material step (lines 600-608). -/
def sourceProgress : Option SourceMaterialResult → List (String × ℤ)
  | some r => if r.success then [("source_complete", 20)] else [("source_skipped", 20)]
  | none => [("source_skipped", 20)]

/-- Outputs of the budget step (lines 610-652).  The human-readable
`note`/`reasoning` strings of `budget_notes` are elided; its machine-readable
fields are kept. -/
structure BudgetOut where
  category : Option String
  aiMin : Option ℚ
  aiOpt : Option ℚ
  aiMax : Option ℚ
  notes : PyVal
  events : List (String × ℤ)

/-- Budget step: categorize a user-provided budget, otherwise estimate from
the screenplay (with a defensive fallback if estimation raises). -/
def budgetOut (env : Env) : BudgetOut :=
  match env.budgetProvided with
  | some b =>
    ⟨some (BudgetUtils.categorize_budget b), none, none, none,
      .vDict [("type", .vStr "user_specified"), ("amount", .vNum b),
        ("category", .vStr (BudgetUtils.categorize_budget b))], []⟩
  | none =>
    match env.aiEstimateOutcome with
    | .ok (mn, opt, mx) =>
      ⟨some (BudgetUtils.categorize_budget opt), some mn, some opt, some mx,
        .vDict [("type", .vStr "ai_estimated"), ("min_budget", .vNum mn),
          ("optimal_budget", .vNum opt), ("max_budget", .vNum mx),
          ("category", .vStr (BudgetUtils.categorize_budget opt))],
        [("budget_estimated", 22)]⟩
    | .error _ => ⟨none, none, none, none, .vDict [("type", .vStr "unavailable")], []⟩

/-- Grok handler (lines 754-763): no progress event on exception or on a
`None` value (this branch has no `else`). -/
def progressGrok : Except String (Option GrokResult) → List (String × ℤ)
  | .error _ => []
  | .ok (some _) => [("grok_complete", 70)]
  | .ok none => []

/-- OpenAI handler (lines 765-776). -/
def progressOpenai : Except String (Option OpenAIResult) → List (String × ℤ)
  | .error _ => []
  | .ok (some _) => [("openai_complete", 75)]
  | .ok none => [("openai_skipped", 75)]

/-- GPT-5 handler (lines 778-790). -/
def progressGpt5 : Except String (Option GPT5Result) → List (String × ℤ)
  | .error _ => []
  | .ok (some _) => [("gpt5_complete", 80)]
  | .ok none => [("gpt5_skipped", 80)]

/-- DeepSeek handler (lines 792-803). -/
def progressDeepseek : Except String (Option DeepSeekResult) → List (String × ℤ)
  | .error _ => []
  | .ok (some _) => [("deepseek_complete", 82)]
  | .ok none => [("deepseek_skipped", 82)]

/-- Perplexity handler (lines 805-816). -/
def progressPerplexity : Except String (Option PerplexityResult) → List (String × ℤ)
  | .error _ => []
  | .ok (some _) => [("perplexity_complete", 84)]
  | .ok none => [("perplexity_skipped", 84)]

/-- Poster handler (lines 818-831): with the feature disabled the collection
is `None` and the skipped event is emitted; an exception yields no event. -/
def progressPoster (enabled : Bool) :
    Except String (Option PosterCollection) → List (String × ℤ) :=
  fun o =>
    if enabled then
      match o with
      | .error _ => []
      | .ok (some c) =>
        if 0 < c.success_count then [("posters_complete", 85)]
        else [("posters_skipped", 85)]
      | .ok none => [("posters_skipped", 85)]
    else [("posters_skipped", 85)]

/-- Contribution of the grok slot to `db_data` (lines 838-840). -/
def contribGrok (env : Env) : List (String × DbVal) :=
  match handleExc env.grokOutcome with
  | some r => grokToDb r
  | none => []

/-- Contribution of the openai slot (lines 843-845). -/
def contribOpenai (env : Env) : List (String × DbVal) :=
  match handleExc env.openaiOutcome with
  | some r => openaiToDb r
  | none => []

/-- Contribution of the gpt5 slot (lines 848-850). -/
def contribGpt5 (env : Env) : List (String × DbVal) :=
  match handleExc env.gpt5Outcome with
  | some r => gpt5ToDb r
  | none => []

/-- Contribution of the deepseek slot (lines 853-855). -/
def contribDeepseek (env : Env) : List (String × DbVal) :=
  match handleExc env.deepseekOutcome with
  | some r => deepseekToDb r
  | none => []

/-- Contribution of the perplexity slot (lines 858-860). -/
def contribPerplexity (env : Env) : List (String × DbVal) :=
  match handleExc env.perplexityOutcome with
  | some r => perplexityToDb r
  | none => []

/-- Contribution of the poster slot (lines 862-870). -/
def contribPoster (env : Env) : List (String × DbVal) :=
  if env.posterEnabled then
    match handleExc env.posterOutcome with
    | some c => posterToDb c
    | none => []
  else []

/-- Contribution of the source-material result (lines 872-875): the result
object is merged whenever the call returned one, even a failed one. -/
def contribSource (env : Env) : List (String × DbVal) :=
  match env.sourceResult with
  | some r => sourceToDb r
  | none => []

/-- `Option ℚ` db value. -/
def optNum : Option ℚ → DbVal
  | some q => .py (.vNum q)
  | none => .py .vNone

/-- The request-level fields merged last (lines 877-889). -/
def finalFields (env : Env) (b : BudgetOut) : List (String × DbVal) :=
  [("id", .py (.vStr env.analysis_id)),
   ("user_id", .py (.vStr env.user_id)),
   ("original_filename", .py .vNone),
   ("file_path", .py .vNone),
   ("file_size", .py (.vNum env.fileSize)),
   ("budget_category", optStr b.category),
   ("ai_budget_min", optNum b.aiMin),
   ("ai_budget_optimal", optNum b.aiOpt),
   ("ai_budget_max", optNum b.aiMax),
   ("budget_notes", .py b.notes)]

/-- The merged, serialized `db_data` handed to `save_analysis`
(lines 833-900): claude's columns, then each present provider's columns in
order, then the request fields, then the dict/list serialization pass. -/
def mergeDb (result : ClaudeResult) (env : Env) (b : BudgetOut) :
    List (String × DbVal) :=
  serializeDb
    (dbUpdate
      (dbUpdate
        (dbUpdate
          (dbUpdate
            (dbUpdate
              (dbUpdate
                (dbUpdate
                  (dbUpdate (claudeToDb result) (contribGrok env))
                  (contribOpenai env))
                (contribGpt5 env))
              (contribDeepseek env))
            (contribPerplexity env))
          (contribPoster env))
        (contribSource env))
      (finalFields env b))

/-- Observable trace of one `process_text_analysis` run. -/
structure Trace where
  progress : List (String × ℤ)
  fanOutRan : Bool
  savedData : Option (List (String × DbVal))
  statusWrite : Option (String × String)
  usage : List UsageEntry
  totalCost : Option ℚ
  finalStatus : String

/-- The outer exception handler (lines 950-965): a terminal error progress
event, an unconditional `error` status write, and a single zero-cost
anthropic failure ledger entry. -/
def errorTrace (p : List (String × ℤ)) (fanOut : Bool) (e : String) : Trace :=
  ⟨p ++ [("error", 0)], fanOut, none, some ("error", e), [failureEntry e], none, "error"⟩

/-- Cost of an optional provider result. -/
def costOr {α : Type} (f : α → ℚ) : Option α → ℚ
  | some r => f r
  | none => 0

/-- Embedding of `process_text_analysis` (main.py lines 574-965) over an
environment of call outcomes. -/
def processTextAnalysis (env : Env) : Trace :=
  let p1 := [("starting", 5), ("source_analysis", 15)] ++ sourceProgress env.sourceResult
  let b := budgetOut env
  let p3 := p1 ++ b.events ++ [("claude_analysis", 25)]
  match env.claudeOutcome with
  | .error e => errorTrace p3 false e
  | .ok result =>
    let p5 := p3 ++ [("claude_complete", 50), ("parallel_analysis", 55)] ++
      progressGrok env.grokOutcome ++ progressOpenai env.openaiOutcome ++
      progressGpt5 env.gpt5Outcome ++ progressDeepseek env.deepseekOutcome ++
      progressPerplexity env.perplexityOutcome ++
      progressPoster env.posterEnabled env.posterOutcome
    let p6 := p5 ++ [("saving", 92)]
    let db := mergeDb result env b
    if env.saveOk then
      ⟨p6 ++ [("complete", 100)], true, some db, none,
        [anthropicEntry result] ++
          (match handleExc env.grokOutcome with | some g => [xaiEntry g] | none => []) ++
          (match handleExc env.openaiOutcome with | some o => [openaiEntry o] | none => []),
        some (result.cost + costOr GrokResult.cost (handleExc env.grokOutcome) +
          costOr OpenAIResult.cost (handleExc env.openaiOutcome) +
          costOr GPT5Result.cost (handleExc env.gpt5Outcome) +
          costOr DeepSeekResult.cost (handleExc env.deepseekOutcome) +
          costOr PerplexityResult.cost (handleExc env.perplexityOutcome) +
          costOr PosterCollection.total_cost
            (if env.posterEnabled then handleExc env.posterOutcome else none) +
          costOr SourceMaterialResult.cost env.sourceResult),
        "completed"⟩
    else errorTrace p6 true "Failed to save analysis results"

end MainOrch

namespace MainOrch

/-- Unfolding of `dbGet` on a cons cell. -/
theorem dbGet_cons (k k2 : String) (w : DbVal) (rest : List (String × DbVal)) :
    dbGet k ((k2, w) :: rest) = if k2 = k then some w else dbGet k rest := rfl

/-- Unfolding of the replacement map on a cons cell. -/
theorem dbMap_replace_cons (k k2 : String) (v w : DbVal) (rest : List (String × DbVal)) :
    ((k2, w) :: rest).map (fun kv => if kv.1 = k then (k, v) else kv) =
      (if k2 = k then (k, v) else (k2, w)) ::
        rest.map (fun kv => if kv.1 = k then (k, v) else kv) := rfl

/-- Lookup after in-place replacement. -/
theorem dbGet_map_replace (k : String) (v : DbVal) :
    ∀ d : List (String × DbVal),
      dbGet k (d.map (fun kv => if kv.1 = k then (k, v) else kv)) =
        (dbGet k d).map (fun _ => v) := by
  intro d
  induction d with
  | nil => rfl
  | cons kv rest ih =>
    obtain ⟨k2, w⟩ := kv
    rw [dbMap_replace_cons]
    by_cases h : k2 = k
    · rw [if_pos h, dbGet_cons, if_pos rfl, dbGet_cons, if_pos h]
      rfl
    · rw [if_neg h, dbGet_cons, if_neg h, dbGet_cons, if_neg h]
      exact ih

/-- Lookup after in-place replacement at a different key. -/
theorem dbGet_map_replace_other (k k2 : String) (v : DbVal) (h : k2 ≠ k) :
    ∀ d : List (String × DbVal),
      dbGet k2 (d.map (fun kv => if kv.1 = k then (k, v) else kv)) = dbGet k2 d := by
  intro d
  induction d with
  | nil => rfl
  | cons kv rest ih =>
    obtain ⟨kh, w⟩ := kv
    rw [dbMap_replace_cons]
    by_cases hk : kh = k
    · rw [if_pos hk, dbGet_cons, if_neg (fun he => h he.symm), dbGet_cons,
        if_neg (fun he => h (hk ▸ he : k = k2).symm)]
      exact ih
    · rw [if_neg hk, dbGet_cons, dbGet_cons]
      by_cases hk2 : kh = k2
      · rw [if_pos hk2, if_pos hk2]
      · rw [if_neg hk2, if_neg hk2]
        exact ih

/-- Lookup distributes over append. -/
theorem dbGet_append (k : String) :
    ∀ d1 d2 : List (String × DbVal), dbGet k (d1 ++ d2) =
      match dbGet k d1 with
      | some v => some v
      | none => dbGet k d2 := by
  intro d1 d2
  induction d1 with
  | nil => rfl
  | cons kv rest ih =>
    obtain ⟨k2, w⟩ := kv
    by_cases h : k2 = k
    · simp [dbGet, h]
    · simp only [List.cons_append, dbGet, if_neg h]
      exact ih

/-- Assignment then lookup at the same key. -/
theorem dbGet_dbSet_self (d : List (String × DbVal)) (k : String) (v : DbVal) :
    dbGet k (dbSet d k v) = some v := by
  unfold dbSet
  by_cases h : (dbGet k d).isSome
  · rw [if_pos h, dbGet_map_replace]
    obtain ⟨w, hw⟩ := Option.isSome_iff_exists.mp h
    rw [hw]; rfl
  · rw [if_neg h, dbGet_append]
    have hnone : dbGet k d = none := Option.not_isSome_iff_eq_none.mp h
    rw [hnone]
    simp [dbGet]

/-- Assignment does not disturb other keys. -/
theorem dbGet_dbSet_other (d : List (String × DbVal)) (k k2 : String) (v : DbVal)
    (h : k2 ≠ k) : dbGet k2 (dbSet d k v) = dbGet k2 d := by
  unfold dbSet
  by_cases hs : (dbGet k d).isSome
  · rw [if_pos hs, dbGet_map_replace_other k k2 v h]
  · rw [if_neg hs, dbGet_append]
    cases hl : dbGet k2 d with
    | some w => rfl
    | none =>
      simp only [dbGet]
      rw [if_neg (fun he => h he.symm)]

/-- A dict update whose entries avoid `k` leaves the lookup at `k` alone. -/
theorem dbGet_dbUpdate_avoid (k : String) :
    ∀ (l : List (String × DbVal)) (d : List (String × DbVal)),
      (∀ kv ∈ l, kv.1 ≠ k) → dbGet k (dbUpdate d l) = dbGet k d := by
  intro l
  induction l with
  | nil => intro d _; rfl
  | cons kv rest ih =>
    intro d hne
    have hk : kv.1 ≠ k := hne kv (List.mem_cons_self kv rest)
    show dbGet k (dbUpdate (dbSet d kv.1 kv.2) rest) = dbGet k d
    rw [ih (dbSet d kv.1 kv.2) (fun kv2 h2 => hne kv2 (List.mem_cons_of_mem kv h2)),
      dbGet_dbSet_other d kv.1 k kv.2 (fun he => hk he.symm)]

/-- Updating two dicts that agree at `k` with the same entries preserves the
agreement at `k`. -/
theorem dbGet_dbUpdate_congr (k : String) :
    ∀ (l : List (String × DbVal)) (d1 d2 : List (String × DbVal)),
      dbGet k d1 = dbGet k d2 →
      dbGet k (dbUpdate d1 l) = dbGet k (dbUpdate d2 l) := by
  intro l
  induction l with
  | nil => intro d1 d2 h; exact h
  | cons kv rest ih =>
    intro d1 d2 h
    show dbGet k (dbUpdate (dbSet d1 kv.1 kv.2) rest) =
      dbGet k (dbUpdate (dbSet d2 kv.1 kv.2) rest)
    apply ih
    by_cases hk : kv.1 = k
    · subst hk
      rw [dbGet_dbSet_self, dbGet_dbSet_self]
    · rw [dbGet_dbSet_other d1 kv.1 k kv.2 (fun he => hk he.symm),
        dbGet_dbSet_other d2 kv.1 k kv.2 (fun he => hk he.symm)]
      exact h

/-- Serialization maps values pointwise and preserves keys. -/
theorem dbGet_serializeDb (k : String) :
    ∀ d : List (String × DbVal),
      dbGet k (serializeDb d) = (dbGet k d).map serializeVal := by
  intro d
  induction d with
  | nil => rfl
  | cons kv rest ih =>
    obtain ⟨k2, w⟩ := kv
    by_cases h : k2 = k
    · simp [serializeDb, dbGet, h]
    · simp only [serializeDb, List.map_cons, dbGet, if_neg h]
      simp only [serializeDb] at ih
      exact ih

end MainOrch

namespace MainOrch

/-- The six secondary fan-out slots. -/
inductive Sec where
  | grok | openai | gpt5 | deepseek | perplexity | poster
  deriving Repr, DecidableEq

/-- Replace one slot's outcome by an exception with text `e` (the situation
`asyncio.gather` reports when that task raised). -/
def setErr (env : Env) (p : Sec) (e : String) : Env :=
  match p with
  | .grok => { env with grokOutcome := .error e }
  | .openai => { env with openaiOutcome := .error e }
  | .gpt5 => { env with gpt5Outcome := .error e }
  | .deepseek => { env with deepseekOutcome := .error e }
  | .perplexity => { env with perplexityOutcome := .error e }
  | .poster => { env with posterOutcome := .error e }

/-- The `db_data` contribution of one slot. -/
def contribution (env : Env) : Sec → List (String × DbVal)
  | .grok => contribGrok env
  | .openai => contribOpenai env
  | .gpt5 => contribGpt5 env
  | .deepseek => contribDeepseek env
  | .perplexity => contribPerplexity env
  | .poster => contribPoster env

/-- The progress events one slot's handler emits. -/
def secProgress (env : Env) : Sec → List (String × ℤ)
  | .grok => progressGrok env.grokOutcome
  | .openai => progressOpenai env.openaiOutcome
  | .gpt5 => progressGpt5 env.gpt5Outcome
  | .deepseek => progressDeepseek env.deepseekOutcome
  | .perplexity => progressPerplexity env.perplexityOutcome
  | .poster => progressPoster env.posterEnabled env.posterOutcome

/-- Superset of the `db_data` keys each slot can contribute. -/
def secKeys : Sec → List String
  | .grok =>
    ["grok_score", "grok_recommendation", "grok_verdict", "grok_confidence",
     "grok_raw_response", "grok_cultural_analysis", "grok_brutal_honesty",
     "grok_controversy_analysis", "grok_movie_poster_url", "grok_poster_prompt"]
  | .openai =>
    ["openai_score", "openai_recommendation", "openai_verdict", "openai_confidence",
     "openai_raw_response", "openai_commercial_assessment", "openai_technical_craft",
     "openai_industry_comparison", "openai_movie_poster_url", "openai_poster_prompt"]
  | .gpt5 =>
    ["gpt5_score", "gpt5_recommendation", "gpt5_executive_assessment",
     "gpt5_reasoning_depth", "gpt5_reasoning_tokens", "gpt5_confidence",
     "gpt5_processing_time", "gpt5_cost", "gpt5_raw_response",
     "gpt5_character_voice_analysis", "gpt5_dialogue_authenticity",
     "gpt5_prose_quality", "gpt5_emotional_beat_mapping",
     "gpt5_professional_markers", "gpt5_amateur_indicators",
     "gpt5_industry_comparison"]
  | .deepseek =>
    ["deepseek_box_office_prediction", "deepseek_budget_optimization",
     "deepseek_roi_analysis", "deepseek_risk_assessment",
     "deepseek_production_optimization", "deepseek_platform_analysis",
     "deepseek_financial_score", "deepseek_confidence", "deepseek_recommendation",
     "deepseek_cost", "deepseek_processing_time", "deepseek_success",
     "deepseek_error_message", "deepseek_raw_response"]
  | .perplexity =>
    ["perplexity_market_trends", "perplexity_competitive_analysis",
     "perplexity_industry_reports", "perplexity_distribution_strategy",
     "perplexity_talent_intelligence", "perplexity_financial_intelligence",
     "perplexity_sources_cited", "perplexity_market_score",
     "perplexity_competitive_advantage", "perplexity_recommendation",
     "perplexity_cost", "perplexity_processing_time", "perplexity_research_date",
     "perplexity_data_freshness", "perplexity_success", "perplexity_error_message"]
  | .poster =>
    ["poster_collection_title", "poster_collection_genre", "poster_total_cost",
     "poster_total_time", "poster_success_count", "poster_best_url",
     "poster_best_source", "poster_variations_json"]

/-- A conditionally-present serialized entry only carries its fixed key. -/
theorem mem_condDump (kv : String × DbVal) (o : Option PyDict.PyVal) (key : String)
    (h : kv ∈ (match o with
      | some v => [(key, DbVal.jsonOf v)]
      | none => ([] : List (String × DbVal)))) :
    kv.1 = key := by
  cases o with
  | none => simp at h
  | some v => simp at h; rw [h]

/-- Every key a slot contributes lies in its documented key superset. -/
theorem contribution_keys_subset (env : Env) (p : Sec) :
    ∀ kv ∈ contribution env p, kv.1 ∈ secKeys p := by
  cases p with
  | grok =>
    intro kv hkv
    unfold contribution contribGrok at hkv
    cases hge : handleExc env.grokOutcome with
    | none => rw [hge] at hkv; simp at hkv
    | some r =>
      rw [hge] at hkv
      have hkv2 : kv ∈ grokToDb r := hkv
      simp only [grokToDb, List.mem_cons, List.not_mem_nil, or_false] at hkv2
      rcases hkv2 with rfl | rfl | rfl | rfl | rfl | rfl | rfl | rfl | rfl | rfl <;>
        simp [secKeys]
  | openai =>
    intro kv hkv
    unfold contribution contribOpenai at hkv
    cases hge : handleExc env.openaiOutcome with
    | none => rw [hge] at hkv; simp at hkv
    | some r =>
      rw [hge] at hkv
      have hkv2 : kv ∈ openaiToDb r := hkv
      simp only [openaiToDb, List.mem_cons, List.not_mem_nil, or_false] at hkv2
      rcases hkv2 with rfl | rfl | rfl | rfl | rfl | rfl | rfl | rfl | rfl | rfl <;>
        simp [secKeys]
  | gpt5 =>
    intro kv hkv
    unfold contribution contribGpt5 at hkv
    cases hge : handleExc env.gpt5Outcome with
    | none => rw [hge] at hkv; simp at hkv
    | some r =>
      rw [hge] at hkv
      have hkv2 : kv ∈ gpt5ToDb r := hkv
      unfold gpt5ToDb at hkv2
      simp only [List.mem_append] at hkv2
      rcases hkv2 with ((((((hb | h1) | h2) | h3) | h4) | h5) | h6) | h7
      · simp only [List.mem_cons, List.not_mem_nil, or_false] at hb
        rcases hb with rfl | rfl | rfl | rfl | rfl | rfl | rfl | rfl | rfl <;>
          simp [secKeys]
      · rw [mem_condDump kv _ _ h1]; simp [secKeys]
      · rw [mem_condDump kv _ _ h2]; simp [secKeys]
      · rw [mem_condDump kv _ _ h3]; simp [secKeys]
      · rw [mem_condDump kv _ _ h4]; simp [secKeys]
      · rw [mem_condDump kv _ _ h5]; simp [secKeys]
      · rw [mem_condDump kv _ _ h6]; simp [secKeys]
      · rw [mem_condDump kv _ _ h7]; simp [secKeys]
  | deepseek =>
    intro kv hkv
    unfold contribution contribDeepseek at hkv
    cases hge : handleExc env.deepseekOutcome with
    | none => rw [hge] at hkv; simp at hkv
    | some r =>
      rw [hge] at hkv
      have hkv2 : kv ∈ deepseekToDb r := hkv
      simp only [deepseekToDb, List.mem_cons, List.not_mem_nil, or_false] at hkv2
      rcases hkv2 with rfl | rfl | rfl | rfl | rfl | rfl | rfl | rfl | rfl | rfl |
        rfl | rfl | rfl | rfl <;> simp [secKeys]
  | perplexity =>
    intro kv hkv
    unfold contribution contribPerplexity at hkv
    cases hge : handleExc env.perplexityOutcome with
    | none => rw [hge] at hkv; simp at hkv
    | some r =>
      rw [hge] at hkv
      have hkv2 : kv ∈ perplexityToDb r := hkv
      simp only [perplexityToDb, List.mem_cons, List.not_mem_nil, or_false] at hkv2
      rcases hkv2 with rfl | rfl | rfl | rfl | rfl | rfl | rfl | rfl | rfl | rfl |
        rfl | rfl | rfl | rfl | rfl | rfl <;> simp [secKeys]
  | poster =>
    intro kv hkv
    unfold contribution contribPoster at hkv
    by_cases he : env.posterEnabled
    · rw [if_pos he] at hkv
      cases hge : handleExc env.posterOutcome with
      | none => rw [hge] at hkv; simp at hkv
      | some c =>
        rw [hge] at hkv
        have hkv2 : kv ∈ posterToDb c := hkv
        simp only [posterToDb, List.mem_cons, List.not_mem_nil, or_false] at hkv2
        rcases hkv2 with rfl | rfl | rfl | rfl | rfl | rfl | rfl | rfl <;>
          simp [secKeys]
    · rw [if_neg he] at hkv
      simp at hkv

end MainOrch

namespace MainOrch

/-- The eight update lists merged into `db_data` after claude's columns. -/
def contribs (env : Env) (b : BudgetOut) : List (List (String × DbVal)) :=
  [contribGrok env, contribOpenai env, contribGpt5 env, contribDeepseek env,
   contribPerplexity env, contribPoster env, contribSource env, finalFields env b]

/-- The nested merge is the fold of the update lists. -/
theorem mergeDb_eq_foldl (result : ClaudeResult) (env : Env) (b : BudgetOut) :
    mergeDb result env b =
      serializeDb ((contribs env b).foldl dbUpdate (claudeToDb result)) := by
  simp only [mergeDb, contribs, List.foldl]

/-- Lookup through two parallel update chains whose stages are either equal
or avoid the key. -/
theorem foldl_update_lookup (k : String) :
    ∀ (ls1 ls2 : List (List (String × DbVal))) (d1 d2 : List (String × DbVal)),
      dbGet k d1 = dbGet k d2 →
      List.Forall₂ (fun l1 l2 => l1 = l2 ∨
        ((∀ kv ∈ l1, kv.1 ≠ k) ∧ (∀ kv ∈ l2, kv.1 ≠ k))) ls1 ls2 →
      dbGet k (ls1.foldl dbUpdate d1) = dbGet k (ls2.foldl dbUpdate d2) := by
  intro ls1
  induction ls1 with
  | nil =>
    intro ls2 d1 d2 h hf
    cases hf
    exact h
  | cons l rest ih =>
    intro ls2 d1 d2 h hf
    cases hf with
    | cons hrel hrest =>
      apply ih _ _ _ ?_ hrest
      rcases hrel with heq | ⟨ha1, ha2⟩
      · rw [← heq]
        exact dbGet_dbUpdate_congr k l d1 d2 h
      · rw [dbGet_dbUpdate_avoid k l d1 ha1, dbGet_dbUpdate_avoid k _ d2 ha2]
        exact h

/-- C5: in the secondary fan-out, one provider task's exception is captured
as that task's own outcome (its contribution becomes empty and it emits no
progress event), and it never prevents the sibling tasks' results from
being collected (their handled contributions are unchanged), recorded
(their progress events are unchanged) and merged into the saved record (the
merged `db_data` is unchanged at every key outside the failing provider's
columns). -/
theorem fanout_isolation (env : Env) (p : Sec) (e : String) (result : ClaudeResult)
    (b : BudgetOut) (hp : p = Sec.poster → env.posterEnabled = true) :
    contribution (setErr env p e) p = [] ∧
    secProgress (setErr env p e) p = [] ∧
    (∀ q, q ≠ p → contribution (setErr env p e) q = contribution env q) ∧
    (∀ q, q ≠ p → secProgress (setErr env p e) q = secProgress env q) ∧
    (∀ k, k ∉ secKeys p →
      dbGet k (mergeDb result (setErr env p e) b) =
        dbGet k (mergeDb result env b)) := by
  refine ⟨?_, ?_, ?_, ?_, ?_⟩
  · cases p with
    | grok => rfl
    | openai => rfl
    | gpt5 => rfl
    | deepseek => rfl
    | perplexity => rfl
    | poster =>
      simp [contribution, contribPoster, setErr, handleExc, hp rfl]
  · cases p with
    | grok => rfl
    | openai => rfl
    | gpt5 => rfl
    | deepseek => rfl
    | perplexity => rfl
    | poster =>
      simp [secProgress, progressPoster, setErr, hp rfl]
  · intro q hq
    cases p <;> cases q <;> first | rfl | exact absurd rfl hq
  · intro q hq
    cases p <;> cases q <;> first | rfl | exact absurd rfl hq
  · intro k hk
    rw [mergeDb_eq_foldl, mergeDb_eq_foldl, dbGet_serializeDb, dbGet_serializeDb]
    refine congrArg (Option.map serializeVal) ?_
    apply foldl_update_lookup k _ _ _ _ rfl
    have havoid1 : ∀ kv ∈ contribution (setErr env p e) p, kv.1 ≠ k :=
      fun kv hkv hek => hk (hek ▸ contribution_keys_subset (setErr env p e) p kv hkv)
    have havoid2 : ∀ kv ∈ contribution env p, kv.1 ≠ k :=
      fun kv hkv hek => hk (hek ▸ contribution_keys_subset env p kv hkv)
    cases p with
    | grok =>
      exact .cons (Or.inr ⟨havoid1, havoid2⟩) (.cons (Or.inl rfl) (.cons (Or.inl rfl)
        (.cons (Or.inl rfl) (.cons (Or.inl rfl) (.cons (Or.inl rfl)
        (.cons (Or.inl rfl) (.cons (Or.inl rfl) .nil)))))))
    | openai =>
      exact .cons (Or.inl rfl) (.cons (Or.inr ⟨havoid1, havoid2⟩) (.cons (Or.inl rfl)
        (.cons (Or.inl rfl) (.cons (Or.inl rfl) (.cons (Or.inl rfl)
        (.cons (Or.inl rfl) (.cons (Or.inl rfl) .nil)))))))
    | gpt5 =>
      exact .cons (Or.inl rfl) (.cons (Or.inl rfl) (.cons (Or.inr ⟨havoid1, havoid2⟩)
        (.cons (Or.inl rfl) (.cons (Or.inl rfl) (.cons (Or.inl rfl)
        (.cons (Or.inl rfl) (.cons (Or.inl rfl) .nil)))))))
    | deepseek =>
      exact .cons (Or.inl rfl) (.cons (Or.inl rfl) (.cons (Or.inl rfl)
        (.cons (Or.inr ⟨havoid1, havoid2⟩) (.cons (Or.inl rfl) (.cons (Or.inl rfl)
        (.cons (Or.inl rfl) (.cons (Or.inl rfl) .nil)))))))
    | perplexity =>
      exact .cons (Or.inl rfl) (.cons (Or.inl rfl) (.cons (Or.inl rfl)
        (.cons (Or.inl rfl) (.cons (Or.inr ⟨havoid1, havoid2⟩) (.cons (Or.inl rfl)
        (.cons (Or.inl rfl) (.cons (Or.inl rfl) .nil)))))))
    | poster =>
      exact .cons (Or.inl rfl) (.cons (Or.inl rfl) (.cons (Or.inl rfl)
        (.cons (Or.inl rfl) (.cons (Or.inl rfl) (.cons (Or.inr ⟨havoid1, havoid2⟩)
        (.cons (Or.inl rfl) (.cons (Or.inl rfl) .nil)))))))

end MainOrch

namespace MainOrch

open PyDict

/-- Concrete primary result used by the concrete scenarios. -/
def claudeR0 : ClaudeResult :=
  ⟨"cid", "T", "Drama", none, none, 8, "Recommend", "v", "l", "es", .vList [],
   .vList [], .vList [], "cv", "ta", .vList [], .vList [], "dr", 1,
   "Claude Opus 4.1", 1, 3, none, none⟩

/-- Concrete grok result. -/
def grokR0 : GrokResult :=
  ⟨7, "Consider", "verdict", 1, "raw", none, none, none, none, none, 2, 1⟩

/-- Concrete openai result. -/
def openaiR0 : OpenAIResult :=
  ⟨7, "Consider", "verdict", 1, "raw", none, none, none, none, none, 2, 1⟩

/-- Concrete gpt5 result. -/
def gpt5R0 : GPT5Result :=
  ⟨7, "Consider", "ea", "auto", 100, 1, 1, 2, "raw", none, none, none, none,
   none, none, none⟩

/-- Concrete deepseek result. -/
def deepseekR0 : DeepSeekResult :=
  ⟨none, none, none, none, none, none, 7, 1, "Consider", 2, 1, true, none, "raw"⟩

/-- Concrete perplexity result. -/
def perplexityR0 : PerplexityResult :=
  ⟨none, none, none, none, none, none, none, 7, none, "Consider", 2, 1, none,
   none, true, none⟩

/-- Scenario: every awaited call succeeds (poster generation disabled, save
succeeds, user-provided budget). -/
def envAllOk : Env :=
  ⟨"a1", "u1", 100, some 5000000, .ok (1, 2, 3), none, .ok claudeR0,
   .ok (some grokR0), .ok (some openaiR0), .ok (some gpt5R0),
   .ok (some deepseekR0), .ok (some perplexityR0), .ok none, false, true⟩

/-- Scenario: the primary Claude call fails definitively; everything else
would have succeeded. -/
def envPrimaryFail : Env :=
  { envAllOk with
    claudeOutcome := Except.error "Analysis failed: Claude API overloaded" }

/-- Scenario: the grok task raises; everything else succeeds. -/
def envGrokFail : Env :=
  { envAllOk with grokOutcome := .error "Reality check analysis failed" }

/-- Witness for C5 at the concrete all-success environment with the grok
task replaced by an exception: grok's contribution is dropped, openai's
contribution is untouched, and the merged record is unchanged at
"openai_score". -/
theorem fanout_isolation_witness :
    contribution (setErr envAllOk .grok "boom") .grok = [] ∧
    contribution (setErr envAllOk .grok "boom") .openai = contribution envAllOk .openai ∧
    dbGet "openai_score" (mergeDb claudeR0 (setErr envAllOk .grok "boom") (budgetOut envAllOk)) =
      dbGet "openai_score" (mergeDb claudeR0 envAllOk (budgetOut envAllOk)) := by
  have h := fanout_isolation envAllOk .grok "boom" claudeR0 (budgetOut envAllOk)
    (fun hh => absurd hh (by decide))
  exact ⟨h.1, h.2.2.1 .openai (by decide), h.2.2.2.2 "openai_score" (by decide)⟩

end MainOrch

namespace MainOrch

/-- Counterexample to C1: with the primary Claude call failing definitively
and every secondary provider available, the job does NOT complete — the
exception reaches the outer handler, the secondary fan-out never runs,
nothing is saved, and the Job State is written as `error`. -/
theorem primary_failure_aborts_cex :
    (processTextAnalysis envPrimaryFail).finalStatus = "error" ∧
    (processTextAnalysis envPrimaryFail).fanOutRan = false ∧
    (processTextAnalysis envPrimaryFail).savedData = none ∧
    (processTextAnalysis envPrimaryFail).statusWrite =
      some ("error", "Analysis failed: Claude API overloaded") := by
  refine ⟨rfl, rfl, rfl, rfl⟩

/-- C1 (amended): a definitive primary failure aborts the job.  The
exception propagates to the orchestrator's outer handler: the secondary
fan-out never runs, no record is saved, the Result Store status is set to
`error` with the exception text, and a single zero-cost anthropic failure
ledger entry is written.  No default genre is substituted. -/
theorem primary_failure_aborts (env : Env) (e : String)
    (h : env.claudeOutcome = .error e) :
    (processTextAnalysis env).fanOutRan = false ∧
    (processTextAnalysis env).finalStatus = "error" ∧
    (processTextAnalysis env).savedData = none ∧
    (processTextAnalysis env).statusWrite = some ("error", e) ∧
    (processTextAnalysis env).usage = [failureEntry e] := by
  unfold processTextAnalysis
  rw [h]
  exact ⟨rfl, rfl, rfl, rfl, rfl⟩

/-- Witness for the amended C1 at the concrete failing environment. -/
theorem primary_failure_aborts_witness :
    (processTextAnalysis envPrimaryFail).fanOutRan = false ∧
    (processTextAnalysis envPrimaryFail).finalStatus = "error" ∧
    (processTextAnalysis envPrimaryFail).savedData = none ∧
    (processTextAnalysis envPrimaryFail).statusWrite =
      some ("error", "Analysis failed: Claude API overloaded") ∧
    (processTextAnalysis envPrimaryFail).usage =
      [failureEntry "Analysis failed: Claude API overloaded"] :=
  primary_failure_aborts envPrimaryFail "Analysis failed: Claude API overloaded" rfl

end MainOrch

namespace MainOrch

/-- Counterexample to C6: in a run where every provider was invoked and
succeeded, only anthropic, xai and openai receive ledger entries (gpt5,
deepseek, perplexity and the source call get none); and when the grok task
fails, its failed attempt gets no zero-cost entry at all — the ledger shrinks
to the anthropic and openai rows. -/
theorem usage_ledger_only_three_cex :
    ((processTextAnalysis envAllOk).usage.map UsageEntry.api_provider) =
      ["anthropic", "xai", "openai"] ∧
    handleExc envAllOk.gpt5Outcome = some gpt5R0 ∧
    handleExc envAllOk.deepseekOutcome = some deepseekR0 ∧
    handleExc envAllOk.perplexityOutcome = some perplexityR0 ∧
    (processTextAnalysis envAllOk).fanOutRan = true ∧
    (processTextAnalysis envGrokFail).usage =
      [anthropicEntry claudeR0, openaiEntry openaiR0] := by
  refine ⟨rfl, rfl, rfl, rfl, rfl, rfl⟩

/-- C6 (amended): on the success path the Usage Ledger receives exactly one
anthropic entry, plus an xai entry when the grok result is present and an
openai entry when the openai result is present — nothing else, and every
written entry has success = true (so failed attempts are never recorded). -/
theorem usage_ledger_success_path (env : Env) (result : ClaudeResult)
    (hc : env.claudeOutcome = .ok result) (hs : env.saveOk = true) :
    (processTextAnalysis env).usage =
      [anthropicEntry result] ++
        (match handleExc env.grokOutcome with | some g => [xaiEntry g] | none => []) ++
        (match handleExc env.openaiOutcome with | some o => [openaiEntry o] | none => []) ∧
    ∀ u ∈ (processTextAnalysis env).usage,
      u.api_provider ∈ (["anthropic", "xai", "openai"] : List String) ∧
        u.success = true := by
  have husage : (processTextAnalysis env).usage =
      [anthropicEntry result] ++
        (match handleExc env.grokOutcome with | some g => [xaiEntry g] | none => []) ++
        (match handleExc env.openaiOutcome with | some o => [openaiEntry o] | none => []) := by
    unfold processTextAnalysis
    rw [hc, hs]
    rfl
  refine ⟨husage, ?_⟩
  intro u hu
  rw [husage] at hu
  rcases List.mem_append.mp hu with h12 | h3
  · rcases List.mem_append.mp h12 with h1 | h2
    · simp only [List.mem_singleton] at h1
      subst h1
      exact ⟨by simp [anthropicEntry], rfl⟩
    · cases hg : handleExc env.grokOutcome with
      | none => rw [hg] at h2; simp at h2
      | some g =>
        rw [hg] at h2
        have h2b : u ∈ [xaiEntry g] := h2
        simp only [List.mem_singleton] at h2b
        subst h2b
        exact ⟨by simp [xaiEntry], rfl⟩
  · cases ho : handleExc env.openaiOutcome with
    | none => rw [ho] at h3; simp at h3
    | some o =>
      rw [ho] at h3
      have h3b : u ∈ [openaiEntry o] := h3
      simp only [List.mem_singleton] at h3b
      subst h3b
      exact ⟨by simp [openaiEntry], rfl⟩

/-- Witness for the amended C6 at the all-success environment. -/
theorem usage_ledger_success_path_witness :
    (processTextAnalysis envAllOk).usage =
      [anthropicEntry claudeR0] ++ [xaiEntry grokR0] ++ [openaiEntry openaiR0] ∧
    ∀ u ∈ (processTextAnalysis envAllOk).usage,
      u.api_provider ∈ (["anthropic", "xai", "openai"] : List String) ∧
        u.success = true := by
  have h := usage_ledger_success_path envAllOk claudeR0 rfl rfl
  exact ⟨by rw [h.1]; rfl, h.2⟩

end MainOrch
